import Mathlib

/-!
# ethshot-web: authenticated database client and game-store utilities

A shallow embedding of

* `src/lib/database/authenticated-client.js` (`getAuthToken`,
  `createAuthenticatedClient`, `withAuthenticatedClient`), and
* `src/lib/stores/game/utils.js` (`safeBigIntToNumber`, `updateUSDValues`,
  `formatTimeRemaining`, `checkPotMilestones`, `validateContractDeployment`,
  `createInitialGameState`, `handleContractError`),

and a model of the shot lifecycle of the specification, followed by theorems about them.

Conventions of the embedding:

* a JavaScript value that is either a string or `null`/`undefined` is an
  `Option String`; it is *falsy* when it is `none` or the empty string;
* `localStorage` is an association list from keys to strings, passed explicitly;
* a function that may throw returns an `Except Thrown _`; a function that also
  writes `localStorage` returns the store it leaves behind next to its result;
* `Date.now()` (milliseconds) and the wallet store's value are inputs;
* strings are handled through their list of characters, so that every
  definition evaluates by structural recursion.
-/

namespace EthShot

/-! ## JavaScript values -/

/-- A thrown value: `error m` is `new Error(m)`, `value v` any other thrown value. -/
inductive Thrown where
  | error (message : String)
  | value (v : String)
  deriving DecidableEq, Repr

deriving instance DecidableEq for Except

/-- JavaScript truthiness of a value that is a string or `null`/`undefined`. -/
def truthy : Option String → Bool
  | none => false
  | some s => s != ""

/-- The operator `!` on a value that is a string or `null`/`undefined`. -/
def falsy (v : Option String) : Bool := !truthy v

/-- The operator `a || b` on values that are strings or `null`/`undefined`. -/
def jsOr (a b : Option String) : Option String := if truthy a then a else b

/-- The string held by a value known to be a string. -/
def str (v : Option String) : String := v.getD ""

/-- The method `String.prototype.toLowerCase`, on the ASCII letters: wallet addresses are
hexadecimal strings. Characters outside `A`–`Z` are left as they are. -/
def toLowerCase (s : String) : String := ⟨s.data.map Char.toLower⟩

/-- The white space and line terminators that `parseInt` and `parseFloat` skip
(`StrWhiteSpaceChar` of ECMA-262). -/
def isStrWhiteSpaceChar (c : Char) : Bool :=
  [0x09, 0x0A, 0x0B, 0x0C, 0x0D, 0x20, 0xA0, 0x1680, 0x2028, 0x2029, 0x202F, 0x205F,
    0x3000, 0xFEFF].contains c.toNat || (0x2000 ≤ c.toNat && c.toNat ≤ 0x200A)

/-- The value of a character as a digit (`0`–`9`, then letters from 10), if it is one. -/
def digitValue (c : Char) : Option Nat :=
  if '0'.toNat ≤ c.toNat && c.toNat ≤ '9'.toNat then some (c.toNat - '0'.toNat)
  else if 'a'.toNat ≤ c.toNat && c.toNat ≤ 'z'.toNat then some (c.toNat - 'a'.toNat + 10)
  else if 'A'.toNat ≤ c.toNat && c.toNat ≤ 'Z'.toNat then some (c.toNat - 'A'.toNat + 10)
  else none

/-- Whether a character is a digit of the given radix. -/
def isRadixDigit (radix : Nat) (c : Char) : Bool :=
  match digitValue c with
  | some d => d < radix
  | none => false

/-- The integer a list of digits denotes in the given radix. -/
def digitsValue (radix : Nat) (digits : List Char) : Nat :=
  digits.foldl (fun acc c => acc * radix + (digitValue c).getD 0) 0

/-- The sign a numeric string begins with (`-1` after `-`, else `1`) and what follows it. -/
def readSign (S : List Char) : Int × List Char :=
  match S with
  | '-' :: rest => (-1, rest)
  | '+' :: rest => (1, rest)
  | _ => (1, S)

/-- The function `parseInt(string)` without a radix argument: `none` is `NaN`.
Leading white space is skipped, a sign is read, a `0x`/`0X` prefix selects radix 16, and the
longest run of digits is converted; there is no number when that run is empty.
The result is kept as an exact integer: the code only tests it for truthiness and compares it
with a whole number of seconds, and both agree with the binary64 value of the integer. -/
def parseInt (string : String) : Option Int :=
  let S := string.data.dropWhile isStrWhiteSpaceChar
  let signed := readSign S
  let radixed : Nat × List Char :=
    match signed.2 with
    | '0' :: 'x' :: rest => (16, rest)
    | '0' :: 'X' :: rest => (16, rest)
    | _ => (10, signed.2)
  let Z := radixed.2.takeWhile (isRadixDigit radixed.1)
  if Z.isEmpty then none else some (signed.1 * (digitsValue radixed.1 Z : Int))

/-! ## The credential store (`localStorage`) -/

/-- The browser's `localStorage`: keys with their string values. -/
abbrev Storage := List (String × String)

/-- The method `localStorage.getItem(key)`: `none` is `null`. -/
def Storage.getItem (localStorage : Storage) (key : String) : Option String :=
  List.lookup key localStorage

/-- The method `localStorage.removeItem(key)`. -/
def Storage.removeItem (localStorage : Storage) (key : String) : Storage :=
  localStorage.filter (fun entry => entry.1 != key)

/-! ## `authenticated-client.js` -/

/-- The error thrown when no wallet is connected. -/
def notConnectedError : Thrown :=
  .error "No wallet connected. Please connect your wallet first."

/-- The error thrown when no token is stored. -/
def notAuthenticatedError : Thrown :=
  .error "No authentication token found. Please connect and authenticate your wallet first."

/-- The error thrown when the stored token is for another wallet. -/
def walletMismatchError : Thrown :=
  .error "Authentication token is for a different wallet. Please sign in again."

/-- The error thrown when the stored token has expired. -/
def tokenExpiredError : Thrown :=
  .error "Authentication token has expired. Please sign in again."

/-- The function `getAuthToken`. `walletAddress` is the value of the wallet store, `dateNow`
the value of `Date.now()`; the result comes with the `localStorage` the call leaves. -/
def getAuthToken (walletAddress : Option String) (dateNow : Int) (localStorage : Storage) :
    Except Thrown String × Storage :=
  let currentWalletAddress := walletAddress
  if falsy currentWalletAddress then
    (.error notConnectedError, localStorage)
  else
    let jwtToken := localStorage.getItem "ethshot_jwt_token"
    let storedWalletAddress := localStorage.getItem "ethshot_wallet_address"
    let expiresAtStr := localStorage.getItem "ethshot_auth_expires_at"
    if falsy jwtToken || falsy storedWalletAddress then
      (.error notAuthenticatedError, localStorage)
    else if toLowerCase (str storedWalletAddress) != toLowerCase (str currentWalletAddress) then
      (.error walletMismatchError, localStorage)
    else if truthy expiresAtStr then
      let expiresAt := parseInt (str expiresAtStr)
      let currentTime := Int.fdiv dateNow 1000
      match expiresAt with
      | some e =>
        if e != 0 && e < currentTime then
          (.error tokenExpiredError,
            ((localStorage.removeItem "ethshot_jwt_token").removeItem
              "ethshot_wallet_address").removeItem "ethshot_auth_expires_at")
        else
          (.ok (str jwtToken), localStorage)
      | none => (.ok (str jwtToken), localStorage)
    else
      (.ok (str jwtToken), localStorage)

/-- The options `auth` of `createClient`. -/
structure AuthOptions where
  persistSession : Bool
  autoRefreshToken : Bool
  deriving DecidableEq, Repr

/-- The options `realtime` of `createClient`. -/
structure RealtimeOptions where
  enabled : Bool
  deriving DecidableEq, Repr

/-- The headers `global.headers` of `createClient`. -/
structure Headers where
  Authorization : String
  deriving DecidableEq, Repr

/-- The options `global` of `createClient`. -/
structure GlobalOptions where
  headers : Headers
  deriving DecidableEq, Repr

/-- The third argument of `createClient`. -/
structure ClientOptions where
  auth : AuthOptions
  realtime : RealtimeOptions
  global : GlobalOptions
  deriving DecidableEq, Repr

/-- A Supabase client, known by the configuration it was created with. -/
structure SupabaseClient where
  supabaseUrl : String
  supabaseKey : String
  options : ClientOptions
  deriving DecidableEq, Repr

/-- The function `createClient` of `@supabase/supabase-js`, an external library: the client
it returns is the record of its three arguments. -/
def createClient (supabaseUrl supabaseKey : String) (options : ClientOptions) :
    SupabaseClient :=
  { supabaseUrl := supabaseUrl, supabaseKey := supabaseKey, options := options }

/-- The variables of `import.meta.env` the module reads. -/
structure Env where
  VITE_SUPABASE_URL : Option String
  PUBLIC_SUPABASE_URL : Option String
  VITE_SUPABASE_ANON_KEY : Option String
  PUBLIC_SUPABASE_ANON_KEY : Option String
  deriving DecidableEq, Repr

/-- The module constant `supabaseUrl`. -/
def supabaseUrl (env : Env) : Option String :=
  jsOr env.VITE_SUPABASE_URL env.PUBLIC_SUPABASE_URL

/-- The module constant `supabaseAnonKey`. -/
def supabaseAnonKey (env : Env) : Option String :=
  jsOr env.VITE_SUPABASE_ANON_KEY env.PUBLIC_SUPABASE_ANON_KEY

/-- The error thrown when the Supabase configuration is missing. -/
def configurationMissingError : Thrown :=
  .error ("Supabase configuration missing. Please set VITE_SUPABASE_URL and " ++
    "VITE_SUPABASE_ANON_KEY environment variables.")

/-- What the two exported functions do that is observable besides their result: console
output, and the calls of the `operation` callback with the client passed to it. -/
inductive Event where
  | consoleLog (message : String)
  | consoleError (message : String) (error : Thrown)
  | invoke (client : SupabaseClient)
  deriving DecidableEq, Repr

/-- The function `createAuthenticatedClient`: its result, the `localStorage` it leaves and
its console output. -/
def createAuthenticatedClient (env : Env) (walletAddress : Option String) (dateNow : Int)
    (localStorage : Storage) : Except Thrown SupabaseClient × Storage × List Event :=
  if falsy (supabaseUrl env) || falsy (supabaseAnonKey env) then
    (.error configurationMissingError, localStorage, [])
  else
    match getAuthToken walletAddress dateNow localStorage with
    | (.ok jwtToken, storage) =>
      let client := createClient (str (supabaseUrl env)) (str (supabaseAnonKey env))
        { auth := { persistSession := false, autoRefreshToken := false }
          realtime := { enabled := false }
          global := { headers := { Authorization := "Bearer " ++ jwtToken } } }
      (.ok client, storage,
        [.consoleLog "🔐 Created authenticated Supabase client with JWT token"])
    | (.error error, storage) =>
      (.error error, storage,
        [.consoleError "❌ Failed to create authenticated Supabase client:" error])

/-- The function `withAuthenticatedClient`. The callback `operation` receives the client and
the `localStorage` of the moment, and returns or throws, leaving a `localStorage`. Each call
of it is recorded as an `Event.invoke`. -/
def withAuthenticatedClient {α : Type} (operation : SupabaseClient → Storage →
    Except Thrown α × Storage) (env : Env) (walletAddress : Option String) (dateNow : Int)
    (localStorage : Storage) : Except Thrown α × Storage × List Event :=
  match createAuthenticatedClient env walletAddress dateNow localStorage with
  | (.ok client, storage, events) =>
    match operation client storage with
    | (.ok result, storage') => (.ok result, storage', events ++ [.invoke client])
    | (.error error, storage') =>
      (.error error, storage', events ++ [.invoke client,
        .consoleError "❌ Authenticated database operation failed:" error])
  | (.error error, storage, events) =>
    (.error error, storage,
      events ++ [.consoleError "❌ Authenticated database operation failed:" error])

/-- The clients with which the callback was called, in order. -/
def invocations : List Event → List SupabaseClient
  | [] => []
  | .invoke client :: rest => client :: invocations rest
  | _ :: rest => invocations rest

/-! ## `utils.js` -/

/-- The function `formatTimeRemaining` on an integer number of seconds up to `2^53 - 1`,
the integers a JavaScript number holds exactly. There `Math.floor` of the binary64 quotient
is the integer quotient `Int.fdiv`, the operator `%` is `Int.tmod`, and a number is printed
as its decimal digits. Above `2^53 - 1` the source rounds the quotient and the embedding
does not follow it: the theorems carry the bound. -/
def formatTimeRemaining (seconds : Int) : String :=
  if seconds ≤ 0 then "0s"
  else
    let hours := Int.fdiv seconds 3600
    let minutes := Int.fdiv (Int.tmod seconds 3600) 60
    let secs := Int.tmod seconds 60
    if hours > 0 then
      toString hours ++ "h " ++ toString minutes ++ "m"
    else if minutes > 0 then
      toString minutes ++ "m " ++ toString secs ++ "s"
    else
      toString secs ++ "s"

/-- A JavaScript number, by its value: `finite m e` is the decimal `m * 10^e`. Every binary64
number is such a decimal; `parseFloat` returns the binary64 number nearest to what it
reads. -/
inductive JsNumber where
  | nan
  | negInfinity
  | posInfinity
  | finite (mantissa : Int) (exponent : Int)
  deriving DecidableEq, Repr

/-- The rational value of a finite number. -/
def JsNumber.toRat? : JsNumber → Option ℚ
  | .finite m e => some ((m : ℚ) * (10 : ℚ) ^ e)
  | _ => none

/-- The number literal `n` for a natural `n`. -/
def JsNumber.ofNat (n : Nat) : JsNumber := .finite n 0

/-- The operator `x < y` on numbers; a comparison with `NaN` is false. Two decimals are
compared after scaling both to the smaller exponent. -/
def JsNumber.lt : JsNumber → JsNumber → Bool
  | .nan, _ => false
  | _, .nan => false
  | .negInfinity, .negInfinity => false
  | .negInfinity, _ => true
  | _, .negInfinity => false
  | .posInfinity, _ => false
  | _, .posInfinity => true
  | .finite m₁ e₁, .finite m₂ e₂ =>
    let e := min e₁ e₂
    decide (m₁ * 10 ^ (e₁ - e).toNat < m₂ * 10 ^ (e₂ - e).toNat)

/-- The operator `x >= y` on numbers: false with a `NaN`, else the negation of `x < y`. -/
def JsNumber.ge : JsNumber → JsNumber → Bool
  | .nan, _ => false
  | _, .nan => false
  | x, y => !x.lt y

/-- Whether a character is a decimal digit. -/
def isDecimalDigit (c : Char) : Bool := isRadixDigit 10 c

/-- The exponent an `ExponentPart` denotes, read after its `e`: an optional sign and digits.
Without a digit there is no exponent part, and the exponent is 0. -/
def parseExponent (rest : List Char) : Int :=
  let signed := readSign rest
  signed.1 * (digitsValue 10 (signed.2.takeWhile isDecimalDigit) : Int)

/-- The digits of the fraction that follows the integer digits, after a `.`, and what
follows them; no digits when there is no `.`. -/
def readFraction (afterInt : List Char) : List Char × List Char :=
  match afterInt with
  | '.' :: rest => (rest.takeWhile isDecimalDigit, rest.dropWhile isDecimalDigit)
  | _ => ([], afterInt)

/-- The exact value of what `parseFloat(string)` reads, before it is rounded: leading white
space is skipped and the longest beginning that is a `StrDecimalLiteral` (sign, `Infinity`
or digits with an optional fraction and exponent) is read; `NaN` when there is none. -/
def parseDecimal (string : String) : JsNumber :=
  let S := string.data.dropWhile isStrWhiteSpaceChar
  let signed := readSign S
  if "Infinity".data.isPrefixOf signed.2 then
    if signed.1 < 0 then .negInfinity else .posInfinity
  else
    let intDigits := signed.2.takeWhile isDecimalDigit
    let afterInt := signed.2.dropWhile isDecimalDigit
    let fraction := readFraction afterInt
    if intDigits.isEmpty && fraction.1.isEmpty then .nan
    else
      let exponent : Int :=
        match fraction.2 with
        | 'e' :: rest => parseExponent rest
        | 'E' :: rest => parseExponent rest
        | _ => 0
      .finite (signed.1 * (digitsValue 10 (intDigits ++ fraction.1) : Int))
        (exponent - fraction.1.length)

/-- The number of binary digits of a natural number, by halving at most `fuel` times. -/
def bitLengthAux : Nat → Nat → Nat
  | 0, _ => 0
  | fuel + 1, n => if n = 0 then 0 else bitLengthAux fuel (n / 2) + 1

/-- The number of binary digits of a natural number: `2^(bitLength n - 1) ≤ n < 2^bitLength n`
for a positive `n`. -/
def bitLength (n : Nat) : Nat := bitLengthAux n n

/-- Whether the positive rational `num / den` is at least `2^e`. -/
def atLeastPowerOfTwo (num den : Nat) (e : Int) : Bool :=
  if e ≥ 0 then decide (den * 2 ^ e.toNat ≤ num) else decide (den ≤ num * 2 ^ (-e).toNat)

/-- The binade of the positive rational `num / den`: the `E` with
`2^E ≤ num / den < 2^(E+1)`. The difference of the bit lengths is `E` or `E + 1`. -/
def binade (num den : Nat) : Int :=
  let e₀ : Int := (bitLength num : Int) - (bitLength den : Int)
  if atLeastPowerOfTwo num den e₀ then e₀ else e₀ - 1

/-- The integer nearest to `N / D`, the even one of the two when `N / D` is half-way. -/
def roundHalfEven (N D : Nat) : Nat :=
  let q := N / D
  let r := N % D
  if 2 * r < D then q
  else if D < 2 * r then q + 1
  else if q % 2 = 0 then q else q + 1

/-- The rounding of the positive rational `num / den` to binary64, to nearest, ties to
even: the result is `M * 2^k`, returned as `(M, k)`. In the binade `E` the binary64 numbers
are the multiples of `2^(E - 52)`; below `2^(-1022)` (subnormal numbers) they are the
multiples of `2^(-1074)`. -/
def roundPositiveToBinary64 (num den : Nat) : Nat × Int :=
  let k : Int := max (binade num den) (-1022) - 52
  let N := if k ≥ 0 then num else num * 2 ^ (-k).toNat
  let D := if k ≥ 0 then den * 2 ^ k.toNat else den
  (roundHalfEven N D, k)

/-- The binary64 number nearest to a number (ties to even): what a JavaScript number holds
of a value. A value of magnitude `2^1024` or more after rounding is an infinity. A value
that is a binary64 number already is returned as it is written. -/
def roundToBinary64 : JsNumber → JsNumber
  | .finite mantissa exponent =>
    if mantissa = 0 then .finite mantissa exponent
    else
      let num := if exponent ≥ 0 then mantissa.natAbs * 10 ^ exponent.toNat else mantissa.natAbs
      let den := if exponent ≥ 0 then 1 else 10 ^ (-exponent).toNat
      let rounded := roundPositiveToBinary64 num den
      let M := rounded.1
      let k := rounded.2
      let exact : Bool :=
        if k ≥ 0 then decide (M * 2 ^ k.toNat * den = num)
        else decide (M * den = num * 2 ^ (-k).toNat)
      if exact then .finite mantissa exponent
      else if k ≥ 0 then
        if 2 ^ 1024 ≤ M * 2 ^ k.toNat then
          if mantissa < 0 then .negInfinity else .posInfinity
        else .finite (Int.sign mantissa * (M * 2 ^ k.toNat : Nat)) 0
      else .finite (Int.sign mantissa * (M * 5 ^ (-k).toNat : Nat)) k
  | x => x

/-- The function `parseFloat(string)`: the binary64 number nearest to the value of the
longest beginning of the string that is a `StrDecimalLiteral`; `NaN` when there is none. -/
def parseFloat (string : String) : JsNumber := roundToBinary64 (parseDecimal string)

/-- The thresholds of `checkPotMilestones`. -/
def milestones : List Nat := [1, 5, 10, 25, 50, 100]

/-- The loop of `checkPotMilestones` over the thresholds left: the arguments with which
`notifyPotMilestone` is called, in order. The loop ends at the first threshold crossed. -/
def checkPotMilestonesLoop (prevValue newValue : JsNumber) : List Nat → List String
  | [] => []
  | milestone :: rest =>
    if prevValue.lt (.ofNat milestone) && newValue.ge (.ofNat milestone) then
      [toString milestone ++ " ETH"]
    else
      checkPotMilestonesLoop prevValue newValue rest

/-- The function `checkPotMilestones` on two strings: the arguments with which it calls
`notifyPotMilestone`, in order. -/
def checkPotMilestones (previousPot newPotAmount : String) : List String :=
  if previousPot == "" || newPotAmount == previousPot then []
  else
    let prevValue := parseFloat previousPot
    let newValue := parseFloat newPotAmount
    checkPotMilestonesLoop prevValue newValue milestones

/-- Whether a number is `NaN` (the function `isNaN` on a number). -/
def JsNumber.isNaN : JsNumber → Bool
  | .nan => true
  | _ => false

/-- A JavaScript value as `safeBigIntToNumber` tells values apart: by `=== null`,
`=== undefined` and `typeof`. A value of another type than number, string or bigint is a
boolean, or an object, symbol or function, which is known by what `String(value)` does with
it: return a string or throw. -/
inductive JsValue where
  | null
  | undefined
  | boolean (b : Bool)
  | number (n : JsNumber)
  | string (s : String)
  | bigint (v : Int)
  | other (stringResult : Except Thrown String)
  deriving DecidableEq

/-- A call of `console.warn` by `safeBigIntToNumber`: `exceedsSafeRange text` for a bigint
outside the safe range, with its decimal text; `failedToConvert value error` in the `catch`
block. -/
inductive Warning where
  | exceedsSafeRange (text : String)
  | failedToConvert (value : JsValue) (error : Thrown)
  deriving DecidableEq

/-- The constant `Number.MAX_SAFE_INTEGER`, `2^53 - 1`. -/
def MAX_SAFE_INTEGER : Int := 9007199254740991

/-- The constant `Number.MIN_SAFE_INTEGER`, `-(2^53 - 1)`. -/
def MIN_SAFE_INTEGER : Int := -9007199254740991

/-- The last block of `safeBigIntToNumber`: `try { parseFloat(String(value)) ... }` with its
`catch`, given what `String(value)` does. -/
def convertViaString (value : JsValue) (stringResult : Except Thrown String) :
    Except Thrown JsNumber × List Warning :=
  match stringResult with
  | .ok stringValue =>
    let parsed := parseFloat stringValue
    (.ok (if parsed.isNaN then .ofNat 0 else parsed), [])
  | .error error => (.ok (.ofNat 0), [.failedToConvert value error])

/-- The function `safeBigIntToNumber`: what it returns or throws, and its calls of
`console.warn`. `Number(value)` of a bigint in the safe range is the number of the same
integer value; `value.toString()` of a bigint is its decimal text. -/
def safeBigIntToNumber (value : JsValue) : Except Thrown JsNumber × List Warning :=
  match value with
  | .null => (.ok (.ofNat 0), [])
  | .undefined => (.ok (.ofNat 0), [])
  | .number n => (.ok n, [])
  | .string s =>
    let parsed := parseFloat s
    (.ok (if parsed.isNaN then .ofNat 0 else parsed), [])
  | .bigint v =>
    if v > MAX_SAFE_INTEGER || v < MIN_SAFE_INTEGER then
      (.ok (parseFloat (toString v)), [.exceedsSafeRange (toString v)])
    else
      (.ok (.finite v 0), [])
  | .boolean b => convertViaString value (.ok (if b then "true" else "false"))
  | .other stringResult => convertViaString value stringResult

/-- An object whose fields this module never reads, known by its identity. -/
structure JsObject where
  ref : Nat
  deriving DecidableEq, Repr

/-- The game state: the fields of the object `createInitialGameState` builds. A field that
is `null` or an object is an `Option`, an array a list. -/
structure GameState where
  contractAddress : String
  contract : Option JsObject
  contractDeployed : Option Bool
  currentPot : JsValue
  currentPotUSD : JsValue
  shotCost : JsValue
  shotCostUSD : JsValue
  sponsorCost : JsValue
  sponsorCostUSD : JsValue
  playerStats : Option JsObject
  canShoot : Bool
  cooldownRemaining : JsNumber
  currentSponsor : Option JsObject
  recentWinners : List JsObject
  topPlayers : List JsObject
  loading : Bool
  takingShot : Bool
  error : Option String
  activeCrypto : String
  gameConfig : Option JsObject
  isMultiCryptoMode : Bool
  availableDiscounts : List JsObject
  referralStats : Option JsObject
  referralProcessed : Bool
  lastUpdate : Option JsObject
  deriving DecidableEq

/-- The three calls of the imported `calculateUSDValue` in `updateUSDValues`, in the order
of the array: for the pot, the shot cost and the sponsor cost. `calculateUSDValue` is a
parameter: a lookup takes an amount and the outside world `σ` it reads and may change, and
resolves to a value or fails. The results come with the world the three lookups leave. -/
def usdLookups {σ : Type} (calculateUSDValue : JsValue → σ → Except Thrown JsValue × σ)
    (state : GameState) (world : σ) :
    Except Thrown JsValue × Except Thrown JsValue × Except Thrown JsValue × σ :=
  let pot := calculateUSDValue state.currentPot world
  let shot := calculateUSDValue state.shotCost pot.2
  let sponsor := calculateUSDValue state.sponsorCost shot.2
  (pot.1, shot.1, sponsor.1, sponsor.2)

/-- The function `updateUSDValues`. `Promise.all` resolves when the three lookups resolve
and fails when one of them fails; the `catch` block returns `state`, and its `console.warn`
is not recorded. -/
def updateUSDValues {σ : Type} (calculateUSDValue : JsValue → σ → Except Thrown JsValue × σ)
    (state : GameState) (world : σ) : Except Thrown GameState × σ :=
  match usdLookups calculateUSDValue state world with
  | (.ok potUSD, .ok shotUSD, .ok sponsorUSD, world') =>
    (.ok { state with
        currentPotUSD := potUSD
        shotCostUSD := shotUSD
        sponsorCostUSD := sponsorUSD }, world')
  | (_, _, _, world') => (.ok state, world')

/-- The object `validateContractDeployment` returns; `error` is `none` when the field is
not set. -/
structure ValidationResult where
  isValid : Bool
  error : Option String
  deriving DecidableEq, Repr

/-- The placeholder address `validateContractDeployment` compares with. -/
def placeholderAddress : String := "0x1234567890123456789012345678901234567890"

/-- The function `validateContractDeployment` on an address that is a string or
`null`/`undefined`. -/
def validateContractDeployment (contractAddress : Option String) : ValidationResult :=
  if falsy contractAddress || contractAddress == some placeholderAddress then
    { isValid := false
      error := some "Smart contract not deployed yet. Please deploy the contract first." }
  else
    { isValid := true, error := none }

/-- The function `createInitialGameState`. -/
def createInitialGameState : GameState :=
  { contractAddress := ""
    contract := none
    contractDeployed := none
    currentPot := .string "0"
    currentPotUSD := .string "0"
    shotCost := .string "0"
    shotCostUSD := .string "0"
    sponsorCost := .string "0"
    sponsorCostUSD := .string "0"
    playerStats := none
    canShoot := false
    cooldownRemaining := .ofNat 0
    currentSponsor := none
    recentWinners := []
    topPlayers := []
    loading := false
    takingShot := false
    error := none
    activeCrypto := "ETH"
    gameConfig := none
    isMultiCryptoMode := false
    availableDiscounts := []
    referralStats := none
    referralProcessed := false
    lastUpdate := none }

/-- The method `String.prototype.includes`: whether `searchString` occurs in `s`. -/
def includes (s searchString : String) : Bool :=
  s.data.tails.any (fun tail => searchString.data.isPrefixOf tail)

/-- An `Error` object, with its `message`. -/
structure JsError where
  message : String
  deriving DecidableEq, Repr

/-- The message for a rate limit of the RPC provider. -/
def rateLimitMessage : String := "RPC provider rate limit exceeded. Please try again later."

/-- The message for an unreachable network. -/
def networkUnavailableMessage : String :=
  "Unable to connect to blockchain network. Please check your internet connection."

/-- The function `handleContractError`. -/
def handleContractError (error : JsError) (cryptoType : String) : String :=
  let errorMessage := cryptoType ++ " contract not found at the configured address."
  if includes error.message "not yet implemented" then
    error.message
  else if includes error.message "Too Many Requests" then
    rateLimitMessage
  else if includes error.message "missing response" then
    networkUnavailableMessage
  else
    errorMessage

/-! ## The shot lifecycle -/

/-- Modelled from the spec: the Shot State Controller (§4.3) is not among the source files,
which only declare the contract functions it drives (`commitShot`, `revealShot`,
`cleanupExpiredPendingShot`). The states of the lifecycle: `Idle`, `Committed`, `Expired`. -/
inductive ShotPhase where
  | idle
  | committed
  | expired
  deriving DecidableEq, Repr

/-- Modelled from the spec: the player's shot record (§3) with the state of its lifecycle,
the counter `totalWon` of the player's statistics and the recent winners, most recent
first. -/
structure ShotRecord where
  phase : ShotPhase
  hasPendingShot : Bool
  commitBlock : Option Nat
  pendingAmount : Option Nat
  cooldownRemaining : Nat
  totalWon : Nat
  recentWinners : List String
  deriving DecidableEq, Repr

/-- Modelled from the spec: the transitions of §4.3 with what their external collaborators
supply. `commit stake block` is a commit that passed the checks of cooldown and balance, at
the given block; `reveal player won cooldown` a reveal resolved as a win or a loss, with
the cooldown window to set; `expire currentBlock window` an expiry at the given block, for
the collaborator's window. -/
inductive ShotTransition where
  | commit (stake : Nat) (block : Nat)
  | reveal (player : String) (won : Bool) (cooldown : Nat)
  | expire (currentBlock : Nat) (window : Nat)
  deriving DecidableEq, Repr

/-- Modelled from the spec: the lifecycle error of §7. -/
inductive LifecycleError where
  | invalidStateTransition
  deriving DecidableEq, Repr

/-- Modelled from the spec: the states a transition is valid from (§4.3): `commit` only
from `Idle`, `reveal` and `expire` only from `Committed`. -/
def ShotTransition.validFrom : ShotTransition → ShotPhase → Bool
  | .commit _ _, .idle => true
  | .reveal _ _ _, .committed => true
  | .expire _ _, .committed => true
  | _, _ => false

/-- Modelled from the spec: the transition function of the controller (§4.3). A commit
records the amount and the block and moves to `Committed`; a reveal moves to `Idle`, counts
a win and puts the winner first in the recent winners, and resets the cooldown; an expiry
past the window moves to `Expired`. Every other attempt fails with
`InvalidStateTransition` and the record is the one given. -/
def shotStep (transition : ShotTransition) (record : ShotRecord) :
    Except LifecycleError Unit × ShotRecord :=
  match transition, record.phase with
  | .commit stake block, .idle =>
    (.ok (), { record with
      phase := .committed, hasPendingShot := true
      commitBlock := some block, pendingAmount := some stake })
  | .reveal player won cooldown, .committed =>
    (.ok (), { record with
      phase := .idle, hasPendingShot := false, commitBlock := none, pendingAmount := none
      cooldownRemaining := cooldown
      totalWon := if won then record.totalWon + 1 else record.totalWon
      recentWinners := if won then player :: record.recentWinners else record.recentWinners })
  | .expire currentBlock window, .committed =>
    if (record.commitBlock.getD 0) + window < currentBlock then
      (.ok (), { record with phase := .expired })
    else
      (.error .invalidStateTransition, record)
  | _, _ => (.error .invalidStateTransition, record)

/-- Modelled from the spec: the cleanup that follows an expiry (§4.3) takes `Expired` to
`Idle` and drops the pending shot. -/
def shotCleanup (record : ShotRecord) : ShotRecord :=
  match record.phase with
  | .expired =>
    { record with
      phase := .idle, hasPendingShot := false, commitBlock := none, pendingAmount := none }
  | _ => record

/-! ## The rendering the specification describes -/

/-- The rendering as the largest two non-zero units of the hours/minutes/seconds
decomposition: the units with value zero are dropped, the first two that remain are
printed. It is what `formatTimeRemaining` is compared with. -/
def renderLargestTwoNonZero (seconds : Int) : String :=
  if seconds ≤ 0 then "0s"
  else
    let units : List (Int × String) :=
      [(seconds / 3600, "h"), (seconds % 3600 / 60, "m"), (seconds % 60, "s")]
    " ".intercalate
      (((units.filter (fun u => u.1 != 0)).take 2).map (fun u => toString u.1 ++ u.2))

/-! ## Concrete inputs -/

/-- A store with a token for wallet `0xabc` that expires at second 1700000000. -/
def storeExpiringAt : Storage :=
  [("ethshot_jwt_token", "tok"), ("ethshot_wallet_address", "0xabc"),
    ("ethshot_auth_expires_at", "1700000000")]

/-- A store with a token for wallet `0xabc` whose expiry entry is `0`. -/
def storeExpiryZero : Storage :=
  [("ethshot_jwt_token", "tok"), ("ethshot_wallet_address", "0xabc"),
    ("ethshot_auth_expires_at", "0")]

/-- A store with a token for wallet `0xabc` and no expiry entry. -/
def storeNoExpiry : Storage :=
  [("ethshot_jwt_token", "tok"), ("ethshot_wallet_address", "0xabc")]

/-- An environment with the URL and the key set. -/
def envConfigured : Env :=
  { VITE_SUPABASE_URL := some "https://db.example"
    PUBLIC_SUPABASE_URL := none
    VITE_SUPABASE_ANON_KEY := none
    PUBLIC_SUPABASE_ANON_KEY := some "anon" }

/-- An environment without a key. -/
def envNoKey : Env :=
  { VITE_SUPABASE_URL := some "https://db.example"
    PUBLIC_SUPABASE_URL := none
    VITE_SUPABASE_ANON_KEY := none
    PUBLIC_SUPABASE_ANON_KEY := some "" }

/-- A callback that returns the `Authorization` header of the client it is given. -/
def readHeader (client : SupabaseClient) (localStorage : Storage) :
    Except Thrown String × Storage :=
  (.ok client.options.global.headers.Authorization, localStorage)

/-- A callback that throws and clears the store. -/
def failingOperation (_client : SupabaseClient) (_localStorage : Storage) :
    Except Thrown String × Storage :=
  (.error (.value "row level security"), [])

/-- A game state with a pot of `2`, a shot cost of `0.001` and a sponsor cost of `0.05`. -/
def sampleState : GameState :=
  { createInitialGameState with
    currentPot := .string "2"
    shotCost := .string "0.001"
    sponsorCost := .string "0.05"
    currentPotUSD := .string "5000"
    contractDeployed := some true }

/-- A price oracle that counts its calls in the world, resolves to `USD <amount>` for a
string amount and fails for another value. -/
def oracleTagging (amount : JsValue) (calls : Nat) : Except Thrown JsValue × Nat :=
  match amount with
  | .string text => (.ok (.string ("USD " ++ text)), calls + 1)
  | _ => (.error (.error "price unavailable"), calls + 1)

/-- A price oracle that fails for the amount `0.001` and only for it. -/
def oracleFailingOnShot (amount : JsValue) (calls : Nat) : Except Thrown JsValue × Nat :=
  if amount = .string "0.001" then (.error (.error "price unavailable"), calls + 1)
  else oracleTagging amount calls

/-- A price oracle that always fails. -/
def oracleDown (_amount : JsValue) (calls : Nat) : Except Thrown JsValue × Nat :=
  (.error (.error "price unavailable"), calls + 1)

/-- An idle shot record. -/
def idleRecord : ShotRecord :=
  { phase := .idle, hasPendingShot := false, commitBlock := none, pendingAmount := none
    cooldownRemaining := 0, totalWon := 0, recentWinners := [] }

/-- A shot record with a shot committed at block 100. -/
def committedRecord : ShotRecord :=
  { phase := .committed, hasPendingShot := true, commitBlock := some 100
    pendingAmount := some 1, cooldownRemaining := 0, totalWon := 0, recentWinners := [] }

/-! ## Lemmas on the store -/

theorem Storage.getItem_removeItem (localStorage : Storage) (key key' : String) :
    (localStorage.removeItem key').getItem key =
      if key = key' then none else localStorage.getItem key := by
  induction localStorage with
  | nil => simp [Storage.removeItem, Storage.getItem]
  | cons entry rest ih =>
    obtain ⟨k, v⟩ := entry
    simp only [Storage.removeItem, Storage.getItem] at ih ⊢
    by_cases hk : k = key'
    · subst hk
      by_cases hkey : key = k
      · subst hkey
        simpa [List.filter_cons] using ih
      · have hne : (key == k) = false := by simpa using hkey
        simpa [List.filter_cons, List.lookup_cons, hne, hkey] using ih
    · have hne : (k != key') = true := by simpa using hk
      by_cases hkey : key = k
      · subst hkey
        simp [List.filter_cons, hne, List.lookup_cons, hk]
      · have hne' : (key == k) = false := by simpa using hkey
        simpa [List.filter_cons, hne, List.lookup_cons, hne'] using ih

theorem Storage.getItem_removeItem_self (localStorage : Storage) (key : String) :
    (localStorage.removeItem key).getItem key = none := by
  simp [Storage.getItem_removeItem]

theorem Storage.getItem_removeItem_of_none (localStorage : Storage) (key key' : String)
    (h : localStorage.getItem key = none) : (localStorage.removeItem key').getItem key = none := by
  simp [Storage.getItem_removeItem, h]

theorem truthy_some (s : String) : truthy (some s) = true ↔ s ≠ "" := by
  simp [truthy]

theorem truthy_of_parseInt (s : String) (E : Int) (h : parseInt s = some E) :
    truthy (some s) = true := by
  rw [truthy_some]
  rintro rfl
  have hnone : parseInt "" = none := by decide
  rw [hnone] at h
  exact Option.noConfusion h

/-- What `getAuthToken` does once a wallet is connected and a token and a wallet are stored
for it: only the expiry test is left. -/
theorem getAuthToken_of_stored (W S tok : String) (dateNow : Int) (localStorage : Storage)
    (hW : W ≠ "") (htok : localStorage.getItem "ethshot_jwt_token" = some tok)
    (htok' : tok ≠ "") (hS : localStorage.getItem "ethshot_wallet_address" = some S)
    (hS' : S ≠ "") (hmatch : toLowerCase S = toLowerCase W) :
    getAuthToken (some W) dateNow localStorage =
      if truthy (localStorage.getItem "ethshot_auth_expires_at") then
        match parseInt (str (localStorage.getItem "ethshot_auth_expires_at")) with
        | some e =>
          if e != 0 && e < Int.fdiv dateNow 1000 then
            (.error tokenExpiredError,
              ((localStorage.removeItem "ethshot_jwt_token").removeItem
                "ethshot_wallet_address").removeItem "ethshot_auth_expires_at")
          else (.ok tok, localStorage)
        | none => (.ok tok, localStorage)
      else (.ok tok, localStorage) := by
  simp [getAuthToken, falsy, truthy, str, htok, hS, hW, htok', hS', hmatch]

/-! ## `getAuthToken`: expiry -/

/-- C1, as stated, fails: when the current time in seconds equals the stored expiry
(wallet matching, token stored), `getAuthToken` returns the token and does not fail with the
token-expired error; the same happens at every time when the stored expiry is `0`. -/
theorem getAuthToken_at_expiry_returns_token :
    storeExpiringAt.getItem "ethshot_jwt_token" = some "tok" ∧
    storeExpiringAt.getItem "ethshot_wallet_address" = some "0xabc" ∧
    toLowerCase "0xabc" = toLowerCase "0xABC" ∧
    storeExpiringAt.getItem "ethshot_auth_expires_at" = some "1700000000" ∧
    parseInt "1700000000" = some 1700000000 ∧
    (1700000000 : Int) ≤ Int.fdiv 1700000000000 1000 ∧
    (getAuthToken (some "0xABC") 1700000000000 storeExpiringAt).1 = .ok "tok" ∧
    (getAuthToken (some "0xABC") 1700000000000 storeExpiringAt).1 ≠ .error tokenExpiredError ∧
    parseInt "0" = some 0 ∧
    (0 : Int) ≤ Int.fdiv 1700000000000 1000 ∧
    (getAuthToken (some "0xABC") 1700000000000 storeExpiryZero).1 = .ok "tok" := by
  decide

/-- C1, amended: with a token stored, the stored wallet equal to the active wallet ignoring
letter case, and a stored expiry that parses to the integer `E`: when `E` is not zero and
the current time in seconds is strictly greater than `E`, `getAuthToken` fails with the
token-expired error; when the current time is at most `E` (so also when it equals `E`), it
returns the token. -/
theorem getAuthToken_expired_strictly_after (W S tok expStr : String) (E dateNow : Int)
    (localStorage : Storage) (hW : W ≠ "")
    (htok : localStorage.getItem "ethshot_jwt_token" = some tok) (htok' : tok ≠ "")
    (hS : localStorage.getItem "ethshot_wallet_address" = some S) (hS' : S ≠ "")
    (hmatch : toLowerCase S = toLowerCase W)
    (hexp : localStorage.getItem "ethshot_auth_expires_at" = some expStr)
    (hE : parseInt expStr = some E) :
    (E ≠ 0 → E < Int.fdiv dateNow 1000 →
      (getAuthToken (some W) dateNow localStorage).1 = .error tokenExpiredError) ∧
    (Int.fdiv dateNow 1000 ≤ E →
      (getAuthToken (some W) dateNow localStorage).1 = .ok tok) := by
  rw [getAuthToken_of_stored W S tok dateNow localStorage hW htok htok' hS hS' hmatch]
  simp only [hexp, str, Option.getD_some, hE, truthy_of_parseInt expStr E hE]
  constructor
  · intro h0 hlt
    simp [h0, hlt]
  · intro hle
    have : ¬ E < Int.fdiv dateNow 1000 := not_lt.mpr hle
    simp [this]

/-- An instance of the amended C1: one second after the expiry the call fails with the
token-expired error, and at the expiry it returns the token. -/
theorem getAuthToken_expired_strictly_after_witness :
    (getAuthToken (some "0xABC") 1700000001000 storeExpiringAt).1 = .error tokenExpiredError ∧
    (getAuthToken (some "0xABC") 1700000000000 storeExpiringAt).1 = .ok "tok" :=
  ⟨(getAuthToken_expired_strictly_after "0xABC" "0xabc" "tok" "1700000000" 1700000000
      1700000001000 storeExpiringAt (by decide) (by decide) (by decide) (by decide)
      (by decide) (by decide) (by decide) (by decide)).1 (by decide) (by decide),
   (getAuthToken_expired_strictly_after "0xABC" "0xabc" "tok" "1700000000" 1700000000
      1700000000000 storeExpiringAt (by decide) (by decide) (by decide) (by decide)
      (by decide) (by decide) (by decide) (by decide)).2 (by decide)⟩

/-- C2, as stated, fails: a stored expiry of `0` is strictly earlier than the current time,
yet `getAuthToken` returns the token and the store keeps all three entries. -/
theorem getAuthToken_expiry_zero_not_purged :
    storeExpiryZero.getItem "ethshot_auth_expires_at" = some "0" ∧
    parseInt "0" = some 0 ∧
    (0 : Int) < Int.fdiv 1700000000000 1000 ∧
    toLowerCase "0xabc" = toLowerCase "0xABC" ∧
    (getAuthToken (some "0xABC") 1700000000000 storeExpiryZero).1 = .ok "tok" ∧
    (getAuthToken (some "0xABC") 1700000000000 storeExpiryZero).2.getItem
      "ethshot_jwt_token" = some "tok" ∧
    (getAuthToken (some "0xABC") 1700000000000 storeExpiryZero).2.getItem
      "ethshot_wallet_address" = some "0xabc" ∧
    (getAuthToken (some "0xABC") 1700000000000 storeExpiryZero).2.getItem
      "ethshot_auth_expires_at" = some "0" := by
  decide

/-- C2, amended: with a token stored, the stored wallet matching the active wallet, and a
stored expiry that parses to a non-zero integer strictly earlier than the current time in
seconds, `getAuthToken` fails with the token-expired error and the store it leaves has no
token, no stored wallet address and no expiry entry. -/
theorem getAuthToken_expired_purges (W S tok expStr : String) (E dateNow : Int)
    (localStorage : Storage) (hW : W ≠ "")
    (htok : localStorage.getItem "ethshot_jwt_token" = some tok) (htok' : tok ≠ "")
    (hS : localStorage.getItem "ethshot_wallet_address" = some S) (hS' : S ≠ "")
    (hmatch : toLowerCase S = toLowerCase W)
    (hexp : localStorage.getItem "ethshot_auth_expires_at" = some expStr)
    (hE : parseInt expStr = some E) (h0 : E ≠ 0) (hlt : E < Int.fdiv dateNow 1000) :
    (getAuthToken (some W) dateNow localStorage).1 = .error tokenExpiredError ∧
    (getAuthToken (some W) dateNow localStorage).2.getItem "ethshot_jwt_token" = none ∧
    (getAuthToken (some W) dateNow localStorage).2.getItem "ethshot_wallet_address" = none ∧
    (getAuthToken (some W) dateNow localStorage).2.getItem "ethshot_auth_expires_at" = none := by
  rw [getAuthToken_of_stored W S tok dateNow localStorage hW htok htok' hS hS' hmatch]
  simp only [hexp, str, Option.getD_some, hE, truthy_of_parseInt expStr E hE]
  simp [h0, hlt, Storage.getItem_removeItem]

/-- An instance of the amended C2: one second after the expiry the three entries are gone. -/
theorem getAuthToken_expired_purges_witness :
    (getAuthToken (some "0xABC") 1700000001000 storeExpiringAt).1 = .error tokenExpiredError ∧
    (getAuthToken (some "0xABC") 1700000001000 storeExpiringAt).2.getItem
      "ethshot_jwt_token" = none ∧
    (getAuthToken (some "0xABC") 1700000001000 storeExpiringAt).2.getItem
      "ethshot_wallet_address" = none ∧
    (getAuthToken (some "0xABC") 1700000001000 storeExpiringAt).2.getItem
      "ethshot_auth_expires_at" = none :=
  getAuthToken_expired_purges "0xABC" "0xabc" "tok" "1700000000" 1700000000
    1700000001000 storeExpiringAt (by decide) (by decide) (by decide) (by decide) (by decide)
    (by decide) (by decide) (by decide) (by decide) (by decide)

/-! ## `getAuthToken`: wallet mismatch, missing wallet, missing token -/

/-- C3: for a connected wallet `W` and a store holding a token and a stored wallet `S`
(each a non-empty string), whatever else the store holds and whatever the time,
`getAuthToken` fails with the wallet-mismatch error if and only if lower-cased `S` differs
from lower-cased `W`. -/
theorem getAuthToken_walletMismatch_iff (W S tok : String) (dateNow : Int)
    (localStorage : Storage) (hW : W ≠ "")
    (htok : localStorage.getItem "ethshot_jwt_token" = some tok) (htok' : tok ≠ "")
    (hS : localStorage.getItem "ethshot_wallet_address" = some S) (hS' : S ≠ "") :
    (getAuthToken (some W) dateNow localStorage).1 = .error walletMismatchError ↔
      toLowerCase S ≠ toLowerCase W := by
  constructor
  · intro h hmatch
    rw [getAuthToken_of_stored W S tok dateNow localStorage hW htok htok' hS hS' hmatch] at h
    have hne : tokenExpiredError ≠ walletMismatchError := by decide
    split at h
    · split at h
      · split at h
        · exact hne (Except.error.inj h)
        · exact Except.noConfusion h
      · exact Except.noConfusion h
    · exact Except.noConfusion h
  · intro hne
    simp [getAuthToken, falsy, truthy, str, htok, hS, hW, htok', hS', hne]

/-- An instance of C3: wallets that differ only in letter case are not a mismatch, with an
expiry long past. -/
theorem getAuthToken_walletMismatch_iff_witness :
    (getAuthToken (some "0xABC") 1900000000000 storeExpiringAt).1 = .error walletMismatchError ↔
      toLowerCase "0xabc" ≠ toLowerCase "0xABC" :=
  getAuthToken_walletMismatch_iff "0xABC" "0xabc" "tok" 1900000000000 storeExpiringAt
    (by decide) (by decide) (by decide) (by decide) (by decide)

/-- C4, as stated, fails: with a token stored for wallet `0xabc` and wallet `0xdef` active,
`getAuthToken` fails with the wallet-mismatch error and the store it leaves is the store it
was given, token included. -/
theorem getAuthToken_mismatch_not_purged :
    toLowerCase "0xabc" ≠ toLowerCase "0xdef" ∧
    (getAuthToken (some "0xdef") 1700000000000 storeExpiringAt).1 = .error walletMismatchError ∧
    (getAuthToken (some "0xdef") 1700000000000 storeExpiringAt).2 = storeExpiringAt ∧
    (getAuthToken (some "0xdef") 1700000000000 storeExpiringAt).2.getItem
      "ethshot_jwt_token" = some "tok" := by
  decide

/-- C4, amended: when the stored token belongs to a wallet different from the active wallet,
`getAuthToken` fails with the wallet-mismatch error and leaves the store as it was: the
token, the stored wallet and every other entry stay. -/
theorem getAuthToken_mismatch_keeps_store (W S tok : String) (dateNow : Int)
    (localStorage : Storage) (hW : W ≠ "")
    (htok : localStorage.getItem "ethshot_jwt_token" = some tok) (htok' : tok ≠ "")
    (hS : localStorage.getItem "ethshot_wallet_address" = some S) (hS' : S ≠ "")
    (hne : toLowerCase S ≠ toLowerCase W) :
    getAuthToken (some W) dateNow localStorage = (.error walletMismatchError, localStorage) ∧
    (getAuthToken (some W) dateNow localStorage).2.getItem "ethshot_jwt_token" = some tok := by
  simp [getAuthToken, falsy, truthy, str, htok, hS, hW, htok', hS', hne]

/-- An instance of the amended C4. -/
theorem getAuthToken_mismatch_keeps_store_witness :
    getAuthToken (some "0xdef") 1700000000000 storeNoExpiry =
      (.error walletMismatchError, storeNoExpiry) ∧
    (getAuthToken (some "0xdef") 1700000000000 storeNoExpiry).2.getItem
      "ethshot_jwt_token" = some "tok" :=
  getAuthToken_mismatch_keeps_store "0xdef" "0xabc" "tok" 1700000000000 storeNoExpiry
    (by decide) (by decide) (by decide) (by decide) (by decide) (by decide)

/-- C5: whatever the store holds, `getAuthToken` fails with the not-connected error when no
wallet is active (the wallet value is absent or empty), and, with a wallet active, fails
with the not-authenticated error when no token is stored (the token entry is absent or
empty); in both cases the store it leaves is the store it was given. -/
theorem getAuthToken_notConnected_notAuthenticated (walletAddress : Option String)
    (dateNow : Int) (localStorage : Storage) :
    (truthy walletAddress = false →
      getAuthToken walletAddress dateNow localStorage =
        (.error notConnectedError, localStorage)) ∧
    (truthy walletAddress = true →
      truthy (localStorage.getItem "ethshot_jwt_token") = false →
      getAuthToken walletAddress dateNow localStorage =
        (.error notAuthenticatedError, localStorage)) := by
  constructor
  · intro h
    simp [getAuthToken, falsy, h]
  · intro h h'
    simp [getAuthToken, falsy, h, h']

/-- Instances of C5: no wallet with a full store, and a wallet with a store without a
token. -/
theorem getAuthToken_notConnected_notAuthenticated_witness :
    getAuthToken none 1700000000000 storeExpiringAt =
      (.error notConnectedError, storeExpiringAt) ∧
    getAuthToken (some "0xabc") 1700000000000 [("ethshot_wallet_address", "0xabc")] =
      (.error notAuthenticatedError, [("ethshot_wallet_address", "0xabc")]) :=
  ⟨(getAuthToken_notConnected_notAuthenticated none 1700000000000 storeExpiringAt).1
      (by decide),
   (getAuthToken_notConnected_notAuthenticated (some "0xabc") 1700000000000
      [("ethshot_wallet_address", "0xabc")]).2 (by decide) (by decide)⟩

/-! ## `createAuthenticatedClient` and `withAuthenticatedClient` -/

theorem createAuthenticatedClient_of_missing (env : Env) (walletAddress : Option String)
    (dateNow : Int) (localStorage : Storage)
    (h : (falsy (supabaseUrl env) || falsy (supabaseAnonKey env)) = true) :
    createAuthenticatedClient env walletAddress dateNow localStorage =
      (.error configurationMissingError, localStorage, []) := by
  simp only [createAuthenticatedClient, h, if_true]

theorem createAuthenticatedClient_of_error (env : Env) (walletAddress : Option String)
    (dateNow : Int) (localStorage storage : Storage) (error : Thrown)
    (h : (falsy (supabaseUrl env) || falsy (supabaseAnonKey env)) = false)
    (hauth : getAuthToken walletAddress dateNow localStorage = (.error error, storage)) :
    createAuthenticatedClient env walletAddress dateNow localStorage =
      (.error error, storage,
        [.consoleError "❌ Failed to create authenticated Supabase client:" error]) := by
  simp only [createAuthenticatedClient, h, hauth]
  rfl

theorem createAuthenticatedClient_of_ok (env : Env) (walletAddress : Option String)
    (dateNow : Int) (localStorage storage : Storage) (jwtToken : String)
    (h : (falsy (supabaseUrl env) || falsy (supabaseAnonKey env)) = false)
    (hauth : getAuthToken walletAddress dateNow localStorage = (.ok jwtToken, storage)) :
    createAuthenticatedClient env walletAddress dateNow localStorage =
      (.ok (createClient (str (supabaseUrl env)) (str (supabaseAnonKey env))
          { auth := { persistSession := false, autoRefreshToken := false }
            realtime := { enabled := false }
            global := { headers := { Authorization := "Bearer " ++ jwtToken } } }),
        storage, [.consoleLog "🔐 Created authenticated Supabase client with JWT token"]) := by
  simp only [createAuthenticatedClient, h, hauth]
  rfl

/-- The three ways `createAuthenticatedClient` ends. -/
theorem createAuthenticatedClient_cases (env : Env) (walletAddress : Option String)
    (dateNow : Int) (localStorage : Storage) :
    (∃ error storage events,
      createAuthenticatedClient env walletAddress dateNow localStorage =
        (.error error, storage, events) ∧ invocations events = [] ∧
      ((falsy (supabaseUrl env) || falsy (supabaseAnonKey env)) = true ∨
        (getAuthToken walletAddress dateNow localStorage).1 = .error error)) ∨
    (∃ jwtToken client storage events,
      createAuthenticatedClient env walletAddress dateNow localStorage =
        (.ok client, storage, events) ∧ invocations events = [] ∧
      getAuthToken walletAddress dateNow localStorage = (.ok jwtToken, storage) ∧
      client.options.global.headers.Authorization = "Bearer " ++ jwtToken) := by
  cases h : (falsy (supabaseUrl env) || falsy (supabaseAnonKey env)) with
  | true =>
    exact Or.inl ⟨_, _, _,
      createAuthenticatedClient_of_missing env walletAddress dateNow localStorage h, rfl,
      Or.inl rfl⟩
  | false =>
    rcases hauth : getAuthToken walletAddress dateNow localStorage with ⟨error | jwtToken, storage⟩
    · exact Or.inl ⟨_, _, _,
        createAuthenticatedClient_of_error env walletAddress dateNow localStorage storage error
          h hauth, rfl, Or.inr rfl⟩
    · exact Or.inr ⟨jwtToken, _, _, _,
        createAuthenticatedClient_of_ok env walletAddress dateNow localStorage storage jwtToken
          h hauth, rfl, rfl, rfl⟩

theorem invocations_append (xs ys : List Event) :
    invocations (xs ++ ys) = invocations xs ++ invocations ys := by
  induction xs with
  | nil => rfl
  | cons x rest ih => cases x <;> simp [invocations, ih]

/-- C6: for every operation, if creating the authenticated client fails then
`withAuthenticatedClient` fails with that same error and the operation is not called; this
covers a missing configuration and, with the configuration present, every failure of
`getAuthToken`. Otherwise the operation is called exactly once, with the client created,
and what it returns or throws, and the store it leaves, are what the caller gets. -/
theorem withAuthenticatedClient_propagates {α : Type}
    (operation : SupabaseClient → Storage → Except Thrown α × Storage) (env : Env)
    (walletAddress : Option String) (dateNow : Int) (localStorage : Storage) :
    (∀ error, (createAuthenticatedClient env walletAddress dateNow localStorage).1 =
        .error error →
      (withAuthenticatedClient operation env walletAddress dateNow localStorage).1 =
        .error error ∧
      invocations
        (withAuthenticatedClient operation env walletAddress dateNow localStorage).2.2 = []) ∧
    ((falsy (supabaseUrl env) || falsy (supabaseAnonKey env)) = true →
      (createAuthenticatedClient env walletAddress dateNow localStorage).1 =
        .error configurationMissingError) ∧
    (∀ error, (falsy (supabaseUrl env) || falsy (supabaseAnonKey env)) = false →
      (getAuthToken walletAddress dateNow localStorage).1 = .error error →
      (createAuthenticatedClient env walletAddress dateNow localStorage).1 = .error error) ∧
    (∀ client, (createAuthenticatedClient env walletAddress dateNow localStorage).1 =
        .ok client →
      (withAuthenticatedClient operation env walletAddress dateNow localStorage).1 =
        (operation client
          (createAuthenticatedClient env walletAddress dateNow localStorage).2.1).1 ∧
      (withAuthenticatedClient operation env walletAddress dateNow localStorage).2.1 =
        (operation client
          (createAuthenticatedClient env walletAddress dateNow localStorage).2.1).2 ∧
      invocations
        (withAuthenticatedClient operation env walletAddress dateNow localStorage).2.2 =
          [client]) := by
  refine ⟨?_, ?_, ?_, ?_⟩
  · intro error herr
    rcases createAuthenticatedClient_cases env walletAddress dateNow localStorage with
      ⟨e, storage, events, hc, hev, _⟩ | ⟨_, client, storage, events, hc, _, _, _⟩
    · rw [hc] at herr
      cases herr
      simp [withAuthenticatedClient, hc, invocations_append, hev, invocations]
    · rw [hc] at herr
      exact Except.noConfusion herr
  · intro h
    rw [createAuthenticatedClient_of_missing env walletAddress dateNow localStorage h]
  · intro error h hauth
    rcases hg : getAuthToken walletAddress dateNow localStorage with ⟨r, storage⟩
    rw [hg] at hauth
    cases hauth
    rw [createAuthenticatedClient_of_error env walletAddress dateNow localStorage storage
      error h hg]
  · intro client hok
    rcases createAuthenticatedClient_cases env walletAddress dateNow localStorage with
      ⟨e, storage, events, hc, _, _⟩ | ⟨_, c, storage, events, hc, hev, _, _⟩
    · rw [hc] at hok
      exact Except.noConfusion hok
    · rw [hc] at hok
      cases hok
      rcases hop : operation client storage with ⟨error | result, storage'⟩ <;>
        simp [withAuthenticatedClient, hc, hop, invocations_append, hev, invocations]

/-- Instances of C6: without a key the callback is not called and the configuration
error comes back; with a configuration and a stale token the token-expired error comes back;
with a valid token a throwing callback is called once and its thrown value comes back. -/
theorem withAuthenticatedClient_propagates_witness :
    ((withAuthenticatedClient readHeader envNoKey (some "0xABC") 1700000000000
        storeExpiringAt).1 = .error configurationMissingError ∧
      invocations (withAuthenticatedClient readHeader envNoKey (some "0xABC") 1700000000000
        storeExpiringAt).2.2 = []) ∧
    (createAuthenticatedClient envConfigured (some "0xABC") 1700000001000
        storeExpiringAt).1 = .error tokenExpiredError ∧
    ((withAuthenticatedClient failingOperation envConfigured (some "0xABC") 1700000000000
        storeExpiringAt).1 = .error (.value "row level security") ∧
      (withAuthenticatedClient failingOperation envConfigured (some "0xABC") 1700000000000
        storeExpiringAt).2.1 = [] ∧
      invocations (withAuthenticatedClient failingOperation envConfigured (some "0xABC")
        1700000000000 storeExpiringAt).2.2 =
        [createClient "https://db.example" "anon"
          { auth := { persistSession := false, autoRefreshToken := false }
            realtime := { enabled := false }
            global := { headers := { Authorization := "Bearer tok" } } }]) :=
  ⟨(withAuthenticatedClient_propagates readHeader envNoKey (some "0xABC") 1700000000000
      storeExpiringAt).1 configurationMissingError (by decide),
   (withAuthenticatedClient_propagates readHeader envConfigured (some "0xABC") 1700000001000
      storeExpiringAt).2.2.1 tokenExpiredError (by decide) (by decide),
   (withAuthenticatedClient_propagates failingOperation envConfigured (some "0xABC")
      1700000000000 storeExpiringAt).2.2.2 _ (by decide)⟩

/-- C7: whenever `createAuthenticatedClient` succeeds, `getAuthToken` has resolved a token
for the active wallet and the client is configured with the `Authorization` header
`"Bearer "` followed by exactly that token; when `getAuthToken` fails no client is
returned. -/
theorem createAuthenticatedClient_bearer (env : Env) (walletAddress : Option String)
    (dateNow : Int) (localStorage : Storage) :
    (∀ client, (createAuthenticatedClient env walletAddress dateNow localStorage).1 =
        .ok client →
      ∃ jwtToken, (getAuthToken walletAddress dateNow localStorage).1 = .ok jwtToken ∧
        client.options.global.headers.Authorization = "Bearer " ++ jwtToken) ∧
    (∀ error, (getAuthToken walletAddress dateNow localStorage).1 = .error error →
      ∀ client, (createAuthenticatedClient env walletAddress dateNow localStorage).1 ≠
        .ok client) := by
  have key : ∀ client, (createAuthenticatedClient env walletAddress dateNow localStorage).1 =
      .ok client →
      ∃ jwtToken, (getAuthToken walletAddress dateNow localStorage).1 = .ok jwtToken ∧
        client.options.global.headers.Authorization = "Bearer " ++ jwtToken := by
    intro client hok
    rcases createAuthenticatedClient_cases env walletAddress dateNow localStorage with
      ⟨e, storage, events, hc, _, _⟩ | ⟨jwtToken, c, storage, events, hc, _, hauth, hhdr⟩
    · rw [hc] at hok
      exact Except.noConfusion hok
    · rw [hc] at hok
      cases hok
      exact ⟨jwtToken, by rw [hauth], hhdr⟩
  refine ⟨key, ?_⟩
  intro error herr client hok
  obtain ⟨jwtToken, hauth, _⟩ := key client hok
  rw [hauth] at herr
  exact Except.noConfusion herr

/-- Instances of C7: with the token `tok` stored the client carries `Bearer tok`; with no
wallet connected no client is returned. -/
theorem createAuthenticatedClient_bearer_witness :
    (∃ jwtToken, (getAuthToken (some "0xABC") 1700000000000 storeExpiringAt).1 =
        .ok jwtToken ∧
      (createClient "https://db.example" "anon"
        { auth := { persistSession := false, autoRefreshToken := false }
          realtime := { enabled := false }
          global := { headers := { Authorization := "Bearer tok" } } }
        ).options.global.headers.Authorization = "Bearer " ++ jwtToken) ∧
    (∀ client, (createAuthenticatedClient envConfigured none 1700000000000
        storeExpiringAt).1 ≠ .ok client) :=
  ⟨(createAuthenticatedClient_bearer envConfigured (some "0xABC") 1700000000000
      storeExpiringAt).1 _ (by decide),
   (createAuthenticatedClient_bearer envConfigured none 1700000000000
      storeExpiringAt).2 notConnectedError (by decide)⟩

/-! ## `formatTimeRemaining` -/

/-- The function `formatTimeRemaining` on a positive number of seconds, with the usual
quotient and remainder. -/
theorem formatTimeRemaining_of_pos (seconds : Int) (h : 0 < seconds) :
    formatTimeRemaining seconds =
      if seconds / 3600 > 0 then
        toString (seconds / 3600) ++ "h " ++ toString (seconds % 3600 / 60) ++ "m"
      else if seconds % 3600 / 60 > 0 then
        toString (seconds % 3600 / 60) ++ "m " ++ toString (seconds % 60) ++ "s"
      else
        toString (seconds % 60) ++ "s" := by
  have h1 : Int.fdiv seconds 3600 = seconds / 3600 := Int.fdiv_eq_ediv _ (by norm_num)
  have h2 : Int.tmod seconds 3600 = seconds % 3600 := Int.tmod_eq_emod h.le (by norm_num)
  have h3 : Int.tmod seconds 60 = seconds % 60 := Int.tmod_eq_emod h.le (by norm_num)
  have h4 : Int.fdiv (seconds % 3600) 60 = seconds % 3600 / 60 :=
    Int.fdiv_eq_ediv _ (by norm_num)
  simp only [formatTimeRemaining, not_le.mpr h, if_false, h1, h2, h3, h4]

/-- C8, as stated, fails: exactly one hour is printed as `1h 0m` and exactly one minute as
`1m 0s`, a unit of value zero being printed, where the largest two non-zero units give `1h`
and `1m`; and one hour and one second is printed as `1h 0m`, not `1h 1s`. -/
theorem formatTimeRemaining_prints_zero_unit :
    formatTimeRemaining 3600 = "1h 0m" ∧ renderLargestTwoNonZero 3600 = "1h" ∧
    formatTimeRemaining 60 = "1m 0s" ∧ renderLargestTwoNonZero 60 = "1m" ∧
    formatTimeRemaining 3601 = "1h 0m" ∧ renderLargestTwoNonZero 3601 = "1h 1s" ∧
    formatTimeRemaining 3600 ≠ renderLargestTwoNonZero 3600 := by
  decide

/-- C8, amended: for an integer number of seconds up to `2^53 - 1`, `formatTimeRemaining`
returns `0s` when seconds ≤ 0; otherwise, with `h`, `m`, `s` the hours/minutes/seconds
decomposition of seconds, it prints the largest non-zero unit followed by the next smaller
unit, which is printed also when its value is zero: `<h>h <m>m` when `h > 0`, `<m>m <s>s`
when `h = 0 < m`, and `<s>s` alone below a minute. -/
theorem formatTimeRemaining_leading_unit (seconds h m s : Int)
    (_hsafe : seconds ≤ 2 ^ 53 - 1)
    (hdecomp : seconds = 3600 * h + 60 * m + s) (hm : 0 ≤ m ∧ m < 60) (hs : 0 ≤ s ∧ s < 60) :
    (seconds ≤ 0 → formatTimeRemaining seconds = "0s") ∧
    (0 < seconds → 0 < h →
      formatTimeRemaining seconds = toString h ++ "h " ++ toString m ++ "m") ∧
    (0 < seconds → h = 0 → 0 < m →
      formatTimeRemaining seconds = toString m ++ "m " ++ toString s ++ "s") ∧
    (0 < seconds → h = 0 → m = 0 →
      formatTimeRemaining seconds = toString s ++ "s") := by
  have hh : seconds / 3600 = h := by omega
  have hmm : seconds % 3600 / 60 = m := by omega
  have hss : seconds % 60 = s := by omega
  refine ⟨?_, ?_, ?_, ?_⟩
  · intro hle
    simp [formatTimeRemaining, hle]
  · intro hpos hpos'
    rw [formatTimeRemaining_of_pos seconds hpos, hh, hmm, if_pos hpos']
  · intro hpos h0 hpos'
    rw [formatTimeRemaining_of_pos seconds hpos, hh, hmm, hss, h0,
      if_neg (by decide), if_pos hpos']
  · intro hpos h0 h0'
    rw [formatTimeRemaining_of_pos seconds hpos, hh, hmm, hss, h0, h0',
      if_neg (by decide), if_neg (by decide)]

/-- Instances of the amended C8: 3600 seconds are `1h 0m`, 200 seconds `3m 20s`, 45 seconds
`45s`, and -5 seconds `0s`. -/
theorem formatTimeRemaining_leading_unit_witness :
    formatTimeRemaining 3600 = toString (1 : Int) ++ "h " ++ toString (0 : Int) ++ "m" ∧
    formatTimeRemaining 200 = toString (3 : Int) ++ "m " ++ toString (20 : Int) ++ "s" ∧
    formatTimeRemaining 45 = toString (45 : Int) ++ "s" ∧
    formatTimeRemaining (-5) = "0s" :=
  ⟨(formatTimeRemaining_leading_unit 3600 1 0 0 (by decide) (by decide) (by decide)
      (by decide)).2.1 (by decide) (by decide),
   (formatTimeRemaining_leading_unit 200 0 3 20 (by decide) (by decide) (by decide)
      (by decide)).2.2.1 (by decide) (by decide) (by decide),
   (formatTimeRemaining_leading_unit 45 0 0 45 (by decide) (by decide) (by decide)
      (by decide)).2.2.2 (by decide) (by decide) (by decide),
   (formatTimeRemaining_leading_unit (-5) (-1) 59 55 (by decide) (by decide) (by decide)
      (by decide)).1 (by decide)⟩

/-- C9: for every integer `s` up to `2^53 - 1`, `formatTimeRemaining s` is `0s` if `s ≤ 0`;
`<s>s` if `0 < s < 60`; `<s div 60>m <s mod 60>s` if `60 ≤ s < 3600`; and
`<s div 3600>h <(s mod 3600) div 60>m` if `s ≥ 3600`. In particular 0 gives `0s`, 65 gives
`1m 5s` and 3661 gives `1h 1m`. -/
theorem formatTimeRemaining_piecewise (s : Int) (hsafe : s ≤ 2 ^ 53 - 1) :
    (s ≤ 0 → formatTimeRemaining s = "0s") ∧
    (0 < s → s < 60 → formatTimeRemaining s = toString s ++ "s") ∧
    (60 ≤ s → s < 3600 →
      formatTimeRemaining s = toString (s / 60) ++ "m " ++ toString (s % 60) ++ "s") ∧
    (3600 ≤ s →
      formatTimeRemaining s =
        toString (s / 3600) ++ "h " ++ toString (s % 3600 / 60) ++ "m") ∧
    formatTimeRemaining 0 = "0s" ∧ formatTimeRemaining 65 = "1m 5s" ∧
    formatTimeRemaining 3661 = "1h 1m" := by
  refine ⟨?_, ?_, ?_, ?_, by decide, by decide, by decide⟩
  · intro hle
    simp [formatTimeRemaining, hle]
  · intro hpos hlt
    have h1 : ¬ s / 3600 > 0 := by omega
    have h2 : ¬ s % 3600 / 60 > 0 := by omega
    have h3 : s % 60 = s := by omega
    rw [formatTimeRemaining_of_pos s hpos, if_neg h1, if_neg h2, h3]
  · intro hge hlt
    have h1 : ¬ s / 3600 > 0 := by omega
    have h2 : s % 3600 / 60 > 0 := by omega
    have h3 : s % 3600 / 60 = s / 60 := by omega
    rw [formatTimeRemaining_of_pos s (by omega), if_neg h1, if_pos h2, h3]
  · intro hge
    have h1 : s / 3600 > 0 := by omega
    rw [formatTimeRemaining_of_pos s (by omega), if_pos h1]

/-- Instances of C9, one in each range: -3, 59, 65 and 3661 seconds, and `2^53 - 1`
seconds. -/
theorem formatTimeRemaining_piecewise_witness :
    formatTimeRemaining (-3) = "0s" ∧
    formatTimeRemaining 59 = toString (59 : Int) ++ "s" ∧
    formatTimeRemaining 65 =
      toString ((65 : Int) / 60) ++ "m " ++ toString ((65 : Int) % 60) ++ "s" ∧
    formatTimeRemaining 3661 =
      toString ((3661 : Int) / 3600) ++ "h " ++ toString ((3661 : Int) % 3600 / 60) ++ "m" ∧
    formatTimeRemaining 9007199254740991 =
      toString ((9007199254740991 : Int) / 3600) ++ "h " ++
        toString ((9007199254740991 : Int) % 3600 / 60) ++ "m" :=
  ⟨(formatTimeRemaining_piecewise (-3) (by decide)).1 (by decide),
   (formatTimeRemaining_piecewise 59 (by decide)).2.1 (by decide) (by decide),
   (formatTimeRemaining_piecewise 65 (by decide)).2.2.1 (by decide) (by decide),
   (formatTimeRemaining_piecewise 3661 (by decide)).2.2.2.1 (by decide),
   (formatTimeRemaining_piecewise 9007199254740991 (by decide)).2.2.2.1 (by decide)⟩

/-! ## `checkPotMilestones` -/

theorem scale_cast (a e₁ e : Int) (h : e ≤ e₁) :
    ((a * 10 ^ (e₁ - e).toNat : Int) : ℚ) * (10 : ℚ) ^ e = (a : ℚ) * (10 : ℚ) ^ e₁ := by
  have h1 : ((e₁ - e).toNat : Int) = e₁ - e := Int.toNat_of_nonneg (by omega)
  have h2 : (10 : ℚ) ^ (e₁ - e).toNat = (10 : ℚ) ^ (e₁ - e) := by
    rw [← zpow_natCast, h1]
  have h3 : (10 : ℚ) ^ (e₁ - e) * (10 : ℚ) ^ e = (10 : ℚ) ^ e₁ := by
    rw [← zpow_add₀ (by norm_num : (10 : ℚ) ≠ 0)]
    congr 1
    ring
  push_cast
  rw [h2, mul_assoc, h3]

/-- The comparison of two decimals by scaling is the comparison of their values. -/
theorem scaled_lt_iff (m₁ e₁ m₂ e₂ : Int) :
    m₁ * 10 ^ (e₁ - min e₁ e₂).toNat < m₂ * 10 ^ (e₂ - min e₁ e₂).toNat ↔
      (m₁ : ℚ) * (10 : ℚ) ^ e₁ < (m₂ : ℚ) * (10 : ℚ) ^ e₂ := by
  have hpos : (0 : ℚ) < (10 : ℚ) ^ (min e₁ e₂) := zpow_pos (by norm_num) _
  rw [← scale_cast m₁ e₁ (min e₁ e₂) (min_le_left _ _),
    ← scale_cast m₂ e₂ (min e₁ e₂) (min_le_right _ _), mul_lt_mul_right hpos, Int.cast_lt]

theorem JsNumber.lt_ofNat_iff (m e : Int) (k : Nat) :
    (JsNumber.finite m e).lt (.ofNat k) = true ↔ (m : ℚ) * (10 : ℚ) ^ e < (k : ℚ) := by
  have h := scaled_lt_iff m e (k : Int) 0
  simp only [zpow_zero, mul_one, Int.cast_natCast] at h
  simp only [JsNumber.lt, JsNumber.ofNat, decide_eq_true_eq]
  exact h

theorem JsNumber.ge_ofNat_iff (m e : Int) (k : Nat) :
    (JsNumber.finite m e).ge (.ofNat k) = true ↔ (k : ℚ) ≤ (m : ℚ) * (10 : ℚ) ^ e := by
  have h := JsNumber.lt_ofNat_iff m e k
  simp only [JsNumber.ge, JsNumber.ofNat, Bool.not_eq_true', ← not_lt]
  rw [← h, JsNumber.ofNat]
  simp

theorem JsNumber.toRat?_eq_some (x : JsNumber) (q : ℚ) (h : x.toRat? = some q) :
    ∃ m e, x = .finite m e ∧ q = (m : ℚ) * (10 : ℚ) ^ e := by
  cases x with
  | finite m e => exact ⟨m, e, rfl, (Option.some.inj h).symm⟩
  | nan => exact Option.noConfusion h
  | negInfinity => exact Option.noConfusion h
  | posInfinity => exact Option.noConfusion h

/-- The test of the loop, on two finite numbers: the threshold is crossed. -/
theorem crossed_iff (m₁ e₁ m₂ e₂ : Int) (k : Nat) :
    ((JsNumber.finite m₁ e₁).lt (.ofNat k) && (JsNumber.finite m₂ e₂).ge (.ofNat k)) = true ↔
      (m₁ : ℚ) * (10 : ℚ) ^ e₁ < (k : ℚ) ∧ (k : ℚ) ≤ (m₂ : ℚ) * (10 : ℚ) ^ e₂ := by
  rw [Bool.and_eq_true, JsNumber.lt_ofNat_iff, JsNumber.ge_ofNat_iff]

theorem checkPotMilestonesLoop_length (prevValue newValue : JsNumber) (thresholds : List Nat) :
    (checkPotMilestonesLoop prevValue newValue thresholds).length ≤ 1 := by
  induction thresholds with
  | nil => simp [checkPotMilestonesLoop]
  | cons k rest ih =>
    simp only [checkPotMilestonesLoop]
    split
    · simp
    · exact ih

theorem checkPotMilestonesLoop_none (m₁ e₁ m₂ e₂ : Int) (thresholds : List Nat)
    (h : ∀ k ∈ thresholds,
      ¬ ((m₁ : ℚ) * (10 : ℚ) ^ e₁ < (k : ℚ) ∧ (k : ℚ) ≤ (m₂ : ℚ) * (10 : ℚ) ^ e₂)) :
    checkPotMilestonesLoop (.finite m₁ e₁) (.finite m₂ e₂) thresholds = [] := by
  induction thresholds with
  | nil => simp [checkPotMilestonesLoop]
  | cons k rest ih =>
    have hk := h k (List.mem_cons_self _ _)
    rw [← crossed_iff] at hk
    simp only [checkPotMilestonesLoop, hk, if_false]
    exact ih (fun k' hk' => h k' (List.mem_cons_of_mem _ hk'))

theorem checkPotMilestonesLoop_lowest (m₁ e₁ m₂ e₂ : Int) (thresholds : List Nat) (k : Nat)
    (hk : k ∈ thresholds)
    (hcross : (m₁ : ℚ) * (10 : ℚ) ^ e₁ < (k : ℚ) ∧ (k : ℚ) ≤ (m₂ : ℚ) * (10 : ℚ) ^ e₂)
    (hlow : ∀ k' ∈ thresholds,
      (m₁ : ℚ) * (10 : ℚ) ^ e₁ < (k' : ℚ) → (k' : ℚ) ≤ (m₂ : ℚ) * (10 : ℚ) ^ e₂ → k ≤ k')
    (hsorted : thresholds.Pairwise (· ≤ ·)) :
    checkPotMilestonesLoop (.finite m₁ e₁) (.finite m₂ e₂) thresholds =
      [toString k ++ " ETH"] := by
  induction thresholds with
  | nil => exact absurd hk (List.not_mem_nil _)
  | cons a rest ih =>
    rw [List.pairwise_cons] at hsorted
    by_cases ha : (m₁ : ℚ) * (10 : ℚ) ^ e₁ < (a : ℚ) ∧ (a : ℚ) ≤ (m₂ : ℚ) * (10 : ℚ) ^ e₂
    · have hka : k ≤ a := hlow a (List.mem_cons_self _ _) ha.1 ha.2
      have hak : a ≤ k := by
        rcases List.mem_cons.mp hk with h | h
        · exact h.ge
        · exact hsorted.1 k h
      have heq : a = k := le_antisymm hak hka
      have hb := (crossed_iff m₁ e₁ m₂ e₂ a).mpr ha
      simp only [checkPotMilestonesLoop, hb, if_true]
      rw [heq]
    · have hb := ha
      rw [← crossed_iff] at hb
      simp only [checkPotMilestonesLoop, hb, if_false]
      have hk' : k ∈ rest := by
        rcases List.mem_cons.mp hk with h | h
        · exact absurd (h ▸ hcross) ha
        · exact h
      exact ih hk' (fun k' hk'' => hlow k' (List.mem_cons_of_mem _ hk'')) hsorted.2

theorem isDecimalDigit_toNat (c : Char) (h : isDecimalDigit c = true) :
    48 ≤ c.toNat ∧ c.toNat ≤ 122 := by
  simp only [isDecimalDigit, isRadixDigit, digitValue] at h
  by_contra hcon
  have h48 : ('0'.toNat) = 48 := by decide
  have h57 : ('9'.toNat) = 57 := by decide
  have ha : ('a'.toNat) = 97 := by decide
  have hz : ('z'.toNat) = 122 := by decide
  have hA : ('A'.toNat) = 65 := by decide
  have hZ : ('Z'.toNat) = 90 := by decide
  simp only [h48, h57, ha, hz, hA, hZ] at h
  split at h
  · rename_i d hd
    split at hd
    · rename_i hc
      simp at hc
      omega
    · split at hd
      · rename_i hc
        simp at hc
        omega
      · split at hd
        · rename_i hc
          simp at hc
          omega
        · exact Option.noConfusion hd
  · exact Bool.noConfusion h

/-- A string that begins with a decimal digit is read as a finite decimal: every non-empty
decimal string has a value. -/
theorem parseDecimal_finite_of_digit (c : Char) (rest : List Char)
    (h : isDecimalDigit c = true) :
    ∃ q, (parseDecimal ⟨c :: rest⟩).toRat? = some q := by
  obtain ⟨h1, h2⟩ := isDecimalDigit_toNat c h
  have hws : isStrWhiteSpaceChar c = false := by
    rw [isStrWhiteSpaceChar, Bool.or_eq_false_iff]
    constructor
    · rw [← Bool.not_eq_true, List.contains_iff_exists_mem_beq]
      simp
      omega
    · simp
      omega
  have hsign : readSign (c :: rest) = (1, c :: rest) := by
    unfold readSign
    split
    · rename_i heq
      injection heq with hc _
      subst hc
      exact absurd h1 (by decide)
    · rename_i heq
      injection heq with hc _
      subst hc
      exact absurd h1 (by decide)
    · rfl
  have hI : ('I' == c) = false := by
    cases hb : ('I' == c) with
    | false => rfl
    | true =>
      have : 'I' = c := by simpa using hb
      subst this
      revert h; decide
  simp only [parseDecimal, List.dropWhile, hws, hsign, List.isPrefixOf, hI, Bool.false_and,
    List.takeWhile, h, List.isEmpty_cons, Bool.false_eq_true, if_false, JsNumber.toRat?]
  exact ⟨_, rfl⟩

/-- What `checkPotMilestones` does in terms of the binary64 numbers `prev` and `new` that
`parseFloat` returns for the two strings, the first string not empty: it calls the notifier
at most once, with `<m> ETH` for the lowest threshold `m` of 1, 5, 10, 25, 50, 100 with
`prev < m ≤ new` when there is one, and not at all when there is none. -/
theorem checkPotMilestones_of_parsed (previousPot newPotAmount : String) (prev new : ℚ)
    (hne : previousPot ≠ "") (hprev : (parseFloat previousPot).toRat? = some prev)
    (hnew : (parseFloat newPotAmount).toRat? = some new) :
    (checkPotMilestones previousPot newPotAmount).length ≤ 1 ∧
    (∀ m ∈ milestones, prev < (m : ℚ) → (m : ℚ) ≤ new →
      (∀ m' ∈ milestones, prev < (m' : ℚ) → (m' : ℚ) ≤ new → m ≤ m') →
      checkPotMilestones previousPot newPotAmount = [toString m ++ " ETH"]) ∧
    ((∀ m ∈ milestones, ¬ (prev < (m : ℚ) ∧ (m : ℚ) ≤ new)) →
      checkPotMilestones previousPot newPotAmount = []) := by
  obtain ⟨m₁, e₁, hp, rfl⟩ := JsNumber.toRat?_eq_some _ _ hprev
  obtain ⟨m₂, e₂, hn, rfl⟩ := JsNumber.toRat?_eq_some _ _ hnew
  have hne' : (previousPot == "") = false := by simpa using hne
  refine ⟨?_, ?_, ?_⟩
  · unfold checkPotMilestones
    split
    · simp
    · exact checkPotMilestonesLoop_length _ _ _
  · intro m hm hlt hle hlow
    have hdiff : (newPotAmount == previousPot) = false := by
      cases hb : (newPotAmount == previousPot) with
      | false => rfl
      | true =>
        have heq : newPotAmount = previousPot := by simpa using hb
        rw [heq, hp] at hn
        injection hn with h1 h2
        subst h1 h2
        exact absurd (lt_of_lt_of_le hlt hle) (lt_irrefl _)
    simp only [checkPotMilestones, hne', hdiff, Bool.or_self, Bool.false_eq_true, if_false,
      hp, hn]
    exact checkPotMilestonesLoop_lowest m₁ e₁ m₂ e₂ milestones m hm ⟨hlt, hle⟩ hlow
      (by decide)
  · intro hnone
    unfold checkPotMilestones
    split
    · rfl
    · simp only [hp, hn]
      exact checkPotMilestonesLoop_none m₁ e₁ m₂ e₂ milestones hnone

/-- The examples of the specification: from `0.5` to `2` the notifier is called with
`1 ETH`; from `6` to `8` it is not called; from `0.5` to `120` it is called with `1 ETH`
only. -/
theorem checkPotMilestones_of_parsed_examples :
    checkPotMilestones "0.5" "2" = ["1 ETH"] ∧
    checkPotMilestones "6" "8" = [] ∧
    checkPotMilestones "0.5" "120" = ["1 ETH"] ∧
    (checkPotMilestones "0.5" "120").length ≤ 1 :=
  ⟨(checkPotMilestones_of_parsed "0.5" "2" (((5 : Int) : ℚ) * (10 : ℚ) ^ (-1 : Int))
      (((2 : Int) : ℚ) * (10 : ℚ) ^ (0 : Int)) (by decide)
      (by rw [show parseFloat "0.5" = .finite 5 (-1) from by decide]; rfl)
      (by rw [show parseFloat "2" = .finite 2 0 from by decide]; rfl)).2.1 1 (by decide)
      (by norm_num) (by norm_num)
      (by intro m' hm' _ _; simp [milestones] at hm'; omega),
   (checkPotMilestones_of_parsed "6" "8" (((6 : Int) : ℚ) * (10 : ℚ) ^ (0 : Int))
      (((8 : Int) : ℚ) * (10 : ℚ) ^ (0 : Int)) (by decide)
      (by rw [show parseFloat "6" = .finite 6 0 from by decide]; rfl)
      (by rw [show parseFloat "8" = .finite 8 0 from by decide]; rfl)).2.2
      (by intro m hm; simp [milestones] at hm; rcases hm with h | h | h | h | h | h <;>
        subst h <;> norm_num),
   (checkPotMilestones_of_parsed "0.5" "120" (((5 : Int) : ℚ) * (10 : ℚ) ^ (-1 : Int))
      (((120 : Int) : ℚ) * (10 : ℚ) ^ (0 : Int)) (by decide)
      (by rw [show parseFloat "0.5" = .finite 5 (-1) from by decide]; rfl)
      (by rw [show parseFloat "120" = .finite 120 0 from by decide]; rfl)).2.1 1 (by decide)
      (by norm_num) (by norm_num)
      (by intro m' hm' _ _; simp [milestones] at hm'; omega),
   (checkPotMilestones_of_parsed "0.5" "120" (((5 : Int) : ℚ) * (10 : ℚ) ^ (-1 : Int))
      (((120 : Int) : ℚ) * (10 : ℚ) ^ (0 : Int)) (by decide)
      (by rw [show parseFloat "0.5" = .finite 5 (-1) from by decide]; rfl)
      (by rw [show parseFloat "120" = .finite 120 0 from by decide]; rfl)).1⟩

/-- C10 is right and the code misses it on pot strings that `parseFloat` rounds onto a
threshold. From `0.5` to `0.999999999999999999` no threshold `m` has `prev < m ≤ new`, the
new pot being below 1, yet the notifier is called with `1 ETH`: `parseFloat` returns 1
for the new pot. From `0.999999999999999999` to `1` the threshold 1 has `prev < 1 ≤ new`,
yet the notifier is not called. -/
theorem checkPotMilestones_rounds_onto_threshold :
    parseDecimal "0.5" = .finite 5 (-1) ∧
    parseDecimal "0.999999999999999999" = .finite 999999999999999999 (-18) ∧
    parseDecimal "1" = .finite 1 0 ∧
    (∀ m ∈ milestones, ¬ (((5 : Int) : ℚ) * (10 : ℚ) ^ (-1 : Int) < (m : ℚ) ∧
      (m : ℚ) ≤ ((999999999999999999 : Int) : ℚ) * (10 : ℚ) ^ (-18 : Int))) ∧
    (parseFloat "0.999999999999999999").toRat? = some 1 ∧
    checkPotMilestones "0.5" "0.999999999999999999" = ["1 ETH"] ∧
    (((999999999999999999 : Int) : ℚ) * (10 : ℚ) ^ (-18 : Int) < ((1 : Nat) : ℚ) ∧
      ((1 : Nat) : ℚ) ≤ ((1 : Int) : ℚ) * (10 : ℚ) ^ (0 : Int)) ∧
    1 ∈ milestones ∧
    checkPotMilestones "0.999999999999999999" "1" = [] := by
  refine ⟨by decide, by decide, by decide, ?_, ?_, by decide, by norm_num, by decide,
    by decide⟩
  · intro m hm
    simp only [milestones, List.mem_cons, List.mem_singleton, List.not_mem_nil, or_false] at hm
    rcases hm with h | h | h | h | h | h <;> subst h <;> norm_num
  · rw [show parseFloat "0.999999999999999999" =
      .finite 100000000000000000000000000000000000000000000000000000 (-53) from by decide]
    simp only [JsNumber.toRat?]
    norm_num

/-! ## `safeBigIntToNumber` -/

theorem convertViaString_ok (value : JsValue) (stringResult : Except Thrown String) :
    ∃ n, (convertViaString value stringResult).1 = .ok n := by
  cases stringResult with
  | error error => exact ⟨_, rfl⟩
  | ok stringValue => exact ⟨_, rfl⟩

/-- C11: `safeBigIntToNumber` never throws: for every value (null, undefined, a number, a
string, a bigint of any magnitude, or any other value, also one whose conversion to a
string throws) it returns a number; it returns 0 for null, for undefined, and for every
string that `parseFloat` reads as `NaN`. -/
theorem safeBigIntToNumber_total (value : JsValue) :
    (∃ n, (safeBigIntToNumber value).1 = .ok n) ∧
    (safeBigIntToNumber .null).1 = .ok (.ofNat 0) ∧
    (safeBigIntToNumber .undefined).1 = .ok (.ofNat 0) ∧
    (∀ s, parseFloat s = .nan → (safeBigIntToNumber (.string s)).1 = .ok (.ofNat 0)) := by
  refine ⟨?_, rfl, rfl, ?_⟩
  · cases value with
    | null => exact ⟨_, rfl⟩
    | undefined => exact ⟨_, rfl⟩
    | boolean b => exact convertViaString_ok _ _
    | number n => exact ⟨_, rfl⟩
    | string s => exact ⟨_, rfl⟩
    | bigint v =>
      simp only [safeBigIntToNumber]
      split
      · exact ⟨_, rfl⟩
      · exact ⟨_, rfl⟩
    | other stringResult => exact convertViaString_ok _ _
  · intro s hs
    simp [safeBigIntToNumber, hs, JsNumber.isNaN]

/-- Instances of C11: a bigint of thirty-one digits gives a number, and so does an object
whose conversion to a string throws; the string `abc` gives 0. -/
theorem safeBigIntToNumber_total_witness :
    (∃ n, (safeBigIntToNumber (.bigint 1000000000000000000000000000000)).1 = .ok n) ∧
    (∃ n, (safeBigIntToNumber (.other (.error (.value "no string")))).1 = .ok n) ∧
    (safeBigIntToNumber (.string "abc")).1 = .ok (.ofNat 0) :=
  ⟨(safeBigIntToNumber_total (.bigint 1000000000000000000000000000000)).1,
   (safeBigIntToNumber_total (.other (.error (.value "no string")))).1,
   (safeBigIntToNumber_total .null).2.2.2 "abc" (by decide)⟩

/-- C19: for every bigint `v` with `-(2^53 - 1) ≤ v ≤ 2^53 - 1`, `safeBigIntToNumber`
returns the number of exactly the integer value `v`, without a warning; the conversion
through the decimal text, which warns, is taken exactly by the bigints strictly outside
that range. -/
theorem safeBigIntToNumber_safe_range (v : Int) :
    (-(2 ^ 53 - 1) ≤ v → v ≤ 2 ^ 53 - 1 →
      safeBigIntToNumber (.bigint v) = (.ok (.finite v 0), []) ∧
      (JsNumber.finite v 0).toRat? = some (v : ℚ)) ∧
    (v < -(2 ^ 53 - 1) ∨ 2 ^ 53 - 1 < v →
      safeBigIntToNumber (.bigint v) =
        (.ok (parseFloat (toString v)), [.exceedsSafeRange (toString v)])) ∧
    ((safeBigIntToNumber (.bigint v)).2 = [.exceedsSafeRange (toString v)] ↔
      (v < -(2 ^ 53 - 1) ∨ 2 ^ 53 - 1 < v)) := by
  have hmax : MAX_SAFE_INTEGER = 2 ^ 53 - 1 := by decide
  have hmin : MIN_SAFE_INTEGER = -(2 ^ 53 - 1) := by decide
  have hin : -(2 ^ 53 - 1) ≤ v → v ≤ 2 ^ 53 - 1 →
      safeBigIntToNumber (.bigint v) = (.ok (.finite v 0), []) := by
    intro h1 h2
    have h : (decide (v > MAX_SAFE_INTEGER) || decide (v < MIN_SAFE_INTEGER)) = false := by
      rw [hmax, hmin]
      simp only [Bool.or_eq_false_iff, decide_eq_false_iff_not, not_lt, gt_iff_lt]
      exact ⟨h2, h1⟩
    simp only [safeBigIntToNumber, h, Bool.false_eq_true, if_false]
  have hout : (v < -(2 ^ 53 - 1) ∨ 2 ^ 53 - 1 < v) →
      safeBigIntToNumber (.bigint v) =
        (.ok (parseFloat (toString v)), [.exceedsSafeRange (toString v)]) := by
    intro h
    have h' : (decide (v > MAX_SAFE_INTEGER) || decide (v < MIN_SAFE_INTEGER)) = true := by
      rw [hmax, hmin]
      simp only [Bool.or_eq_true, decide_eq_true_eq, gt_iff_lt]
      exact h.symm
    simp only [safeBigIntToNumber, h', if_true]
  refine ⟨?_, hout, ?_⟩
  · intro h1 h2
    refine ⟨hin h1 h2, ?_⟩
    simp [JsNumber.toRat?]
  · constructor
    · intro hw
      by_contra hcon
      rw [not_or, not_lt, not_lt] at hcon
      rw [hin hcon.1 hcon.2] at hw
      exact List.noConfusion hw
    · intro h
      rw [hout h]

/-- Instances of C19: `2^53 - 1` is returned as it is, `2^53` goes through its text. -/
theorem safeBigIntToNumber_safe_range_witness :
    (safeBigIntToNumber (.bigint 9007199254740991) =
        (.ok (.finite 9007199254740991 0), []) ∧
      (JsNumber.finite 9007199254740991 0).toRat? = some ((9007199254740991 : Int) : ℚ)) ∧
    safeBigIntToNumber (.bigint 9007199254740992) =
      (.ok (parseFloat (toString (9007199254740992 : Int))),
        [.exceedsSafeRange (toString (9007199254740992 : Int))]) :=
  ⟨(safeBigIntToNumber_safe_range 9007199254740991).1 (by decide) (by decide),
   (safeBigIntToNumber_safe_range 9007199254740992).2.1 (by decide)⟩

/-! ## `validateContractDeployment`, `handleContractError`, `createInitialGameState` -/

/-- C14: for every contract address, `validateContractDeployment` reports not deployed
(`isValid` false, with an error message) if and only if the address is absent, empty or
equal to the placeholder `0x1234567890123456789012345678901234567890`; every other address
reports deployed (`isValid` true, no error message). -/
theorem validateContractDeployment_iff (contractAddress : Option String) :
    (((validateContractDeployment contractAddress).isValid = false ∧
        (validateContractDeployment contractAddress).error.isSome = true) ↔
      (contractAddress = none ∨ contractAddress = some "" ∨
        contractAddress = some "0x1234567890123456789012345678901234567890")) ∧
    (¬ (contractAddress = none ∨ contractAddress = some "" ∨
        contractAddress = some "0x1234567890123456789012345678901234567890") →
      (validateContractDeployment contractAddress).isValid = true ∧
      (validateContractDeployment contractAddress).error = none) := by
  have hcond : (falsy contractAddress || contractAddress == some placeholderAddress) = true ↔
      (contractAddress = none ∨ contractAddress = some "" ∨
        contractAddress = some "0x1234567890123456789012345678901234567890") := by
    cases contractAddress with
    | none => simp [falsy, truthy]
    | some a => simp [falsy, truthy, placeholderAddress]
  by_cases h : (falsy contractAddress || contractAddress == some placeholderAddress) = true
  · have h' := hcond.mp h
    have hv : validateContractDeployment contractAddress =
        { isValid := false
          error := some "Smart contract not deployed yet. Please deploy the contract first." } := by
      simp only [validateContractDeployment, h, if_true]
    rw [hv]
    exact ⟨⟨fun _ => h', fun _ => ⟨rfl, rfl⟩⟩, fun hn => absurd h' hn⟩
  · have h' : ¬ _ := fun hc => h (hcond.mpr hc)
    have hv : validateContractDeployment contractAddress = { isValid := true, error := none } := by
      simp only [validateContractDeployment, h, Bool.false_eq_true, if_false]
    rw [hv]
    exact ⟨⟨fun hv => absurd hv.1 (by decide), fun hc => absurd hc h'⟩, fun _ => ⟨rfl, rfl⟩⟩

/-- Instances of C14: an address that differs from the placeholder in its last digit is
deployed; the empty address is not. -/
theorem validateContractDeployment_iff_witness :
    ((validateContractDeployment (some "0x1234567890123456789012345678901234567891")).isValid
        = true ∧
      (validateContractDeployment (some "0x1234567890123456789012345678901234567891")).error
        = none) ∧
    ((validateContractDeployment (some "")).isValid = false ∧
      (validateContractDeployment (some "")).error.isSome = true) :=
  ⟨(validateContractDeployment_iff (some "0x1234567890123456789012345678901234567891")).2
      (by decide),
   (validateContractDeployment_iff (some "")).1.mpr (by decide)⟩

/-- The test `includes` is the occurrence of the characters as a contiguous part. -/
theorem includes_iff (s searchString : String) :
    includes s searchString = true ↔ searchString.data <:+: s.data := by
  simp only [includes, List.any_eq_true, List.mem_tails, List.isPrefixOf_iff_prefix]
  rw [List.infix_iff_prefix_suffix]
  constructor
  · rintro ⟨t, ht, hp⟩
    exact ⟨t, hp, ht⟩
  · rintro ⟨t, hp, ht⟩
    exact ⟨t, ht, hp⟩

/-- C15, as stated, fails: for the text `Solana adapter not yet implemented` the result is
that text, which is none of the three messages; and a text with both `not yet implemented`
and `Too Many Requests` gives the text, not the rate-limit message. -/
theorem handleContractError_passes_text_through :
    handleContractError { message := "Solana adapter not yet implemented" } "SOL" =
      "Solana adapter not yet implemented" ∧
    handleContractError { message := "Solana adapter not yet implemented" } "SOL" ≠
      rateLimitMessage ∧
    handleContractError { message := "Solana adapter not yet implemented" } "SOL" ≠
      networkUnavailableMessage ∧
    handleContractError { message := "Solana adapter not yet implemented" } "SOL" ≠
      "SOL contract not found at the configured address." ∧
    includes "retry not yet implemented: Too Many Requests" "Too Many Requests" = true ∧
    handleContractError { message := "retry not yet implemented: Too Many Requests" } "ETH" =
      "retry not yet implemented: Too Many Requests" := by
  decide

/-- C15, amended: `handleContractError` tests the error text in a fixed order. When the text
contains `not yet implemented`, the result is the text itself; otherwise it is the
rate-limit message when the text contains `Too Many Requests`, otherwise the
network-unavailable message when it contains `missing response`, and otherwise
`<cryptoType> contract not found at the configured address.`. The result is always the
text or one of these three messages. -/
theorem handleContractError_cases (error : JsError) (cryptoType : String) :
    (includes error.message "not yet implemented" = true →
      handleContractError error cryptoType = error.message) ∧
    (includes error.message "not yet implemented" = false →
      includes error.message "Too Many Requests" = true →
      handleContractError error cryptoType = rateLimitMessage) ∧
    (includes error.message "not yet implemented" = false →
      includes error.message "Too Many Requests" = false →
      includes error.message "missing response" = true →
      handleContractError error cryptoType = networkUnavailableMessage) ∧
    (includes error.message "not yet implemented" = false →
      includes error.message "Too Many Requests" = false →
      includes error.message "missing response" = false →
      handleContractError error cryptoType =
        cryptoType ++ " contract not found at the configured address.") ∧
    (handleContractError error cryptoType = error.message ∨
      handleContractError error cryptoType = rateLimitMessage ∨
      handleContractError error cryptoType = networkUnavailableMessage ∨
      handleContractError error cryptoType =
        cryptoType ++ " contract not found at the configured address.") := by
  unfold handleContractError
  cases h1 : includes error.message "not yet implemented" <;>
    cases h2 : includes error.message "Too Many Requests" <;>
    cases h3 : includes error.message "missing response" <;>
    simp

/-- Instances of the amended C15, one for each of the four results. -/
theorem handleContractError_cases_witness :
    handleContractError { message := "Solana adapter not yet implemented" } "SOL" =
      "Solana adapter not yet implemented" ∧
    handleContractError { message := "429 Too Many Requests" } "ETH" = rateLimitMessage ∧
    handleContractError { message := "missing response from the node" } "ETH" =
      networkUnavailableMessage ∧
    handleContractError { message := "call revert exception" } "ETH" =
      "ETH" ++ " contract not found at the configured address." :=
  ⟨(handleContractError_cases { message := "Solana adapter not yet implemented" } "SOL").1
      (by decide),
   (handleContractError_cases { message := "429 Too Many Requests" } "ETH").2.1
      (by decide) (by decide),
   (handleContractError_cases { message := "missing response from the node" } "ETH").2.2.1
      (by decide) (by decide) (by decide),
   (handleContractError_cases { message := "call revert exception" } "ETH").2.2.2.1
      (by decide) (by decide) (by decide)⟩

/-- C16: in the state `createInitialGameState` returns, `currentPot`, `shotCost`,
`sponsorCost` and their three USD equivalents are the string `0`, which
`safeBigIntToNumber` converts to the number 0; `currentSponsor` and `playerStats` are
unset, `recentWinners` is empty, `cooldownRemaining` is 0, and `contractDeployed` is the
unknown value, neither true nor false. -/
theorem createInitialGameState_defaults :
    createInitialGameState.currentPot = .string "0" ∧
    createInitialGameState.shotCost = .string "0" ∧
    createInitialGameState.sponsorCost = .string "0" ∧
    createInitialGameState.currentPotUSD = .string "0" ∧
    createInitialGameState.shotCostUSD = .string "0" ∧
    createInitialGameState.sponsorCostUSD = .string "0" ∧
    (safeBigIntToNumber (.string "0")).1 = .ok (.ofNat 0) ∧
    createInitialGameState.currentSponsor = none ∧
    createInitialGameState.playerStats = none ∧
    createInitialGameState.recentWinners = [] ∧
    createInitialGameState.cooldownRemaining = .ofNat 0 ∧
    createInitialGameState.contractDeployed = none ∧
    createInitialGameState.contractDeployed ≠ some true ∧
    createInitialGameState.contractDeployed ≠ some false := by
  decide

/-! ## `updateUSDValues` -/

/-- What `updateUSDValues` returns when the three lookups resolve. -/
theorem updateUSDValues_of_ok {σ : Type}
    (calculateUSDValue : JsValue → σ → Except Thrown JsValue × σ) (state : GameState)
    (world : σ) (potUSD shotUSD sponsorUSD : JsValue)
    (hpot : (usdLookups calculateUSDValue state world).1 = .ok potUSD)
    (hshot : (usdLookups calculateUSDValue state world).2.1 = .ok shotUSD)
    (hsponsor : (usdLookups calculateUSDValue state world).2.2.1 = .ok sponsorUSD) :
    (updateUSDValues calculateUSDValue state world).1 =
      .ok { state with
        currentPotUSD := potUSD
        shotCostUSD := shotUSD
        sponsorCostUSD := sponsorUSD } := by
  unfold updateUSDValues
  rcases hl : usdLookups calculateUSDValue state world with ⟨pot, shot, sponsor, world'⟩
  rw [hl] at hpot hshot hsponsor
  simp only at hpot hshot hsponsor
  subst hpot hshot hsponsor
  rfl

/-- What `updateUSDValues` returns when one of the three lookups fails. -/
theorem updateUSDValues_of_error {σ : Type}
    (calculateUSDValue : JsValue → σ → Except Thrown JsValue × σ) (state : GameState)
    (world : σ)
    (h : (∃ error, (usdLookups calculateUSDValue state world).1 = .error error) ∨
      (∃ error, (usdLookups calculateUSDValue state world).2.1 = .error error) ∨
      (∃ error, (usdLookups calculateUSDValue state world).2.2.1 = .error error)) :
    (updateUSDValues calculateUSDValue state world).1 = .ok state := by
  unfold updateUSDValues
  rcases hl : usdLookups calculateUSDValue state world with ⟨pot, shot, sponsor, world'⟩
  rw [hl] at h
  simp only at h
  rcases pot with e₁ | a <;> rcases shot with e₂ | b <;> rcases sponsor with e₃ | c <;>
    first
    | rfl
    | (exfalso
       rcases h with ⟨e, he⟩ | ⟨e, he⟩ | ⟨e, he⟩ <;> exact Except.noConfusion he)

/-- C12: for every game state and every price oracle, if one of the three USD lookups
(pot, shot cost, sponsor cost) fails, `updateUSDValues` does not fail and returns exactly
the state it was given, the three USD fields included. -/
theorem updateUSDValues_failure_returns_input {σ : Type}
    (calculateUSDValue : JsValue → σ → Except Thrown JsValue × σ) (state : GameState)
    (world : σ) :
    ((∃ error, (usdLookups calculateUSDValue state world).1 = .error error) →
      (updateUSDValues calculateUSDValue state world).1 = .ok state) ∧
    ((∃ error, (usdLookups calculateUSDValue state world).2.1 = .error error) →
      (updateUSDValues calculateUSDValue state world).1 = .ok state) ∧
    ((∃ error, (usdLookups calculateUSDValue state world).2.2.1 = .error error) →
      (updateUSDValues calculateUSDValue state world).1 = .ok state) :=
  ⟨fun h => updateUSDValues_of_error calculateUSDValue state world (Or.inl h),
   fun h => updateUSDValues_of_error calculateUSDValue state world (Or.inr (Or.inl h)),
   fun h => updateUSDValues_of_error calculateUSDValue state world (Or.inr (Or.inr h))⟩

/-- Instances of C12: with an oracle that is down, and with one that fails for the shot
cost alone, the state comes back as it was. -/
theorem updateUSDValues_failure_returns_input_witness :
    (updateUSDValues oracleDown sampleState 0).1 = .ok sampleState ∧
    (updateUSDValues oracleFailingOnShot sampleState 0).1 = .ok sampleState ∧
    (updateUSDValues oracleDown sampleState 0).1 = .ok sampleState :=
  ⟨(updateUSDValues_failure_returns_input oracleDown sampleState 0).1
      ⟨.error "price unavailable", by decide⟩,
   (updateUSDValues_failure_returns_input oracleFailingOnShot sampleState 0).2.1
      ⟨.error "price unavailable", by decide⟩,
   (updateUSDValues_failure_returns_input oracleDown sampleState 0).2.2
      ⟨.error "price unavailable", by decide⟩⟩

/-- C13, as stated, fails: with an oracle that fails for the shot cost and resolves the pot
to `USD 2` and the sponsor cost to `USD 0.05`, the state returned is the state given: its
pot in USD is still `5000` and its sponsor cost in USD still `0`, and the two resolved
values are not in it. -/
theorem updateUSDValues_discards_resolved_values :
    (usdLookups oracleFailingOnShot sampleState 0).1 = .ok (.string "USD 2") ∧
    (usdLookups oracleFailingOnShot sampleState 0).2.1 =
      .error (.error "price unavailable") ∧
    (usdLookups oracleFailingOnShot sampleState 0).2.2.1 = .ok (.string "USD 0.05") ∧
    (updateUSDValues oracleFailingOnShot sampleState 0).1 = .ok sampleState ∧
    sampleState.currentPotUSD = .string "5000" ∧
    sampleState.currentPotUSD ≠ .string "USD 2" ∧
    sampleState.sponsorCostUSD = .string "0" ∧
    sampleState.sponsorCostUSD ≠ .string "USD 0.05" := by
  decide

/-- C13, amended: in `updateUSDValues` a failure of one USD lookup discards the others: when
one of the three lookups fails and the other two succeed, the state returned is the
unmodified input and carries none of the resolved values; a state other than the input is
returned only when all three lookups succeed. -/
theorem updateUSDValues_all_or_nothing {σ : Type}
    (calculateUSDValue : JsValue → σ → Except Thrown JsValue × σ) (state : GameState)
    (world : σ) :
    (∀ error shotUSD sponsorUSD,
      (usdLookups calculateUSDValue state world).1 = .error error →
      (usdLookups calculateUSDValue state world).2.1 = .ok shotUSD →
      (usdLookups calculateUSDValue state world).2.2.1 = .ok sponsorUSD →
      (updateUSDValues calculateUSDValue state world).1 = .ok state) ∧
    (∀ potUSD error sponsorUSD,
      (usdLookups calculateUSDValue state world).1 = .ok potUSD →
      (usdLookups calculateUSDValue state world).2.1 = .error error →
      (usdLookups calculateUSDValue state world).2.2.1 = .ok sponsorUSD →
      (updateUSDValues calculateUSDValue state world).1 = .ok state) ∧
    (∀ potUSD shotUSD error,
      (usdLookups calculateUSDValue state world).1 = .ok potUSD →
      (usdLookups calculateUSDValue state world).2.1 = .ok shotUSD →
      (usdLookups calculateUSDValue state world).2.2.1 = .error error →
      (updateUSDValues calculateUSDValue state world).1 = .ok state) ∧
    (∀ newState, (updateUSDValues calculateUSDValue state world).1 = .ok newState →
      newState ≠ state →
      ∃ potUSD shotUSD sponsorUSD,
        (usdLookups calculateUSDValue state world).1 = .ok potUSD ∧
        (usdLookups calculateUSDValue state world).2.1 = .ok shotUSD ∧
        (usdLookups calculateUSDValue state world).2.2.1 = .ok sponsorUSD) := by
  refine ⟨?_, ?_, ?_, ?_⟩
  · intro error _ _ h _ _
    exact updateUSDValues_of_error calculateUSDValue state world (Or.inl ⟨error, h⟩)
  · intro _ error _ _ h _
    exact updateUSDValues_of_error calculateUSDValue state world (Or.inr (Or.inl ⟨error, h⟩))
  · intro _ _ error _ _ h
    exact updateUSDValues_of_error calculateUSDValue state world (Or.inr (Or.inr ⟨error, h⟩))
  · intro newState hnew hne
    by_contra hcon
    have herr : (∃ error, (usdLookups calculateUSDValue state world).1 = .error error) ∨
        (∃ error, (usdLookups calculateUSDValue state world).2.1 = .error error) ∨
        (∃ error, (usdLookups calculateUSDValue state world).2.2.1 = .error error) := by
      rcases h1 : (usdLookups calculateUSDValue state world).1 with e₁ | a
      · exact Or.inl ⟨e₁, rfl⟩
      · rcases h2 : (usdLookups calculateUSDValue state world).2.1 with e₂ | b
        · exact Or.inr (Or.inl ⟨e₂, rfl⟩)
        · rcases h3 : (usdLookups calculateUSDValue state world).2.2.1 with e₃ | c
          · exact Or.inr (Or.inr ⟨e₃, rfl⟩)
          · exact absurd ⟨a, b, c, h1, h2, h3⟩ hcon
    rw [updateUSDValues_of_error calculateUSDValue state world herr] at hnew
    exact hne (Except.ok.inj hnew).symm

/-- An instance of the amended C13: the oracle fails for the shot cost alone and the state
comes back as it was. -/
theorem updateUSDValues_all_or_nothing_witness :
    (updateUSDValues oracleFailingOnShot sampleState 0).1 = .ok sampleState :=
  (updateUSDValues_all_or_nothing oracleFailingOnShot sampleState 0).2.1
    (.string "USD 2") (.error "price unavailable") (.string "USD 0.05")
    (by decide) (by decide) (by decide)

/-- C20: for every game state and every price oracle whose three lookups all succeed,
`updateUSDValues` returns a state whose `currentPotUSD`, `shotCostUSD` and
`sponsorCostUSD` are the oracle's results for `currentPot`, `shotCost` and `sponsorCost`,
and whose every other field, `currentPot`, `shotCost` and `sponsorCost` included, is the
input's. -/
theorem updateUSDValues_success_frame {σ : Type}
    (calculateUSDValue : JsValue → σ → Except Thrown JsValue × σ) (state : GameState)
    (world : σ) (potUSD shotUSD sponsorUSD : JsValue)
    (hpot : (calculateUSDValue state.currentPot world).1 = .ok potUSD)
    (hshot : (calculateUSDValue state.shotCost
      (calculateUSDValue state.currentPot world).2).1 = .ok shotUSD)
    (hsponsor : (calculateUSDValue state.sponsorCost
      (calculateUSDValue state.shotCost
        (calculateUSDValue state.currentPot world).2).2).1 = .ok sponsorUSD) :
    ∃ newState, (updateUSDValues calculateUSDValue state world).1 = .ok newState ∧
      newState.currentPotUSD = potUSD ∧ newState.shotCostUSD = shotUSD ∧
      newState.sponsorCostUSD = sponsorUSD ∧
      newState.currentPot = state.currentPot ∧ newState.shotCost = state.shotCost ∧
      newState.sponsorCost = state.sponsorCost ∧
      newState.contractAddress = state.contractAddress ∧
      newState.contract = state.contract ∧
      newState.contractDeployed = state.contractDeployed ∧
      newState.playerStats = state.playerStats ∧ newState.canShoot = state.canShoot ∧
      newState.cooldownRemaining = state.cooldownRemaining ∧
      newState.currentSponsor = state.currentSponsor ∧
      newState.recentWinners = state.recentWinners ∧
      newState.topPlayers = state.topPlayers ∧ newState.loading = state.loading ∧
      newState.takingShot = state.takingShot ∧ newState.error = state.error ∧
      newState.activeCrypto = state.activeCrypto ∧
      newState.gameConfig = state.gameConfig ∧
      newState.isMultiCryptoMode = state.isMultiCryptoMode ∧
      newState.availableDiscounts = state.availableDiscounts ∧
      newState.referralStats = state.referralStats ∧
      newState.referralProcessed = state.referralProcessed ∧
      newState.lastUpdate = state.lastUpdate := by
  refine ⟨_, updateUSDValues_of_ok calculateUSDValue state world potUSD shotUSD sponsorUSD
    hpot hshot hsponsor, ?_⟩
  simp

/-- An instance of C20: the tagging oracle resolves the three amounts of the sample state. -/
theorem updateUSDValues_success_frame_witness :
    ∃ newState, (updateUSDValues oracleTagging sampleState 0).1 = .ok newState ∧
      newState.currentPotUSD = .string "USD 2" ∧
      newState.shotCostUSD = .string "USD 0.001" ∧
      newState.sponsorCostUSD = .string "USD 0.05" ∧
      newState.currentPot = sampleState.currentPot ∧
      newState.shotCost = sampleState.shotCost ∧
      newState.sponsorCost = sampleState.sponsorCost ∧
      newState.contractAddress = sampleState.contractAddress ∧
      newState.contract = sampleState.contract ∧
      newState.contractDeployed = sampleState.contractDeployed ∧
      newState.playerStats = sampleState.playerStats ∧
      newState.canShoot = sampleState.canShoot ∧
      newState.cooldownRemaining = sampleState.cooldownRemaining ∧
      newState.currentSponsor = sampleState.currentSponsor ∧
      newState.recentWinners = sampleState.recentWinners ∧
      newState.topPlayers = sampleState.topPlayers ∧
      newState.loading = sampleState.loading ∧
      newState.takingShot = sampleState.takingShot ∧
      newState.error = sampleState.error ∧
      newState.activeCrypto = sampleState.activeCrypto ∧
      newState.gameConfig = sampleState.gameConfig ∧
      newState.isMultiCryptoMode = sampleState.isMultiCryptoMode ∧
      newState.availableDiscounts = sampleState.availableDiscounts ∧
      newState.referralStats = sampleState.referralStats ∧
      newState.referralProcessed = sampleState.referralProcessed ∧
      newState.lastUpdate = sampleState.lastUpdate :=
  updateUSDValues_success_frame oracleTagging sampleState 0 (.string "USD 2")
    (.string "USD 0.001") (.string "USD 0.05") (by decide) (by decide) (by decide)

/-! ## The shot lifecycle -/

/-- C17: in the shot lifecycle, every transition attempted from a state in which it is not
valid fails with `InvalidStateTransition` and the record is left as it was, no field
changed; so for `commit` while `Committed` and for `reveal` and `expire` while `Idle`. -/
theorem shotStep_invalid_unchanged (transition : ShotTransition) (record : ShotRecord)
    (h : transition.validFrom record.phase = false) :
    shotStep transition record = (.error .invalidStateTransition, record) := by
  unfold shotStep
  cases transition <;> cases hp : record.phase <;>
    simp_all [ShotTransition.validFrom]

/-- Instances of C17: `commit` while `Committed`, `reveal` while `Idle` and `expire` while
`Idle`. -/
theorem shotStep_invalid_unchanged_witness :
    shotStep (.commit 1 120) committedRecord =
      (.error .invalidStateTransition, committedRecord) ∧
    shotStep (.reveal "0xabc" true 60) idleRecord =
      (.error .invalidStateTransition, idleRecord) ∧
    shotStep (.expire 500 256) idleRecord = (.error .invalidStateTransition, idleRecord) :=
  ⟨shotStep_invalid_unchanged (.commit 1 120) committedRecord (by decide),
   shotStep_invalid_unchanged (.reveal "0xabc" true 60) idleRecord (by decide),
   shotStep_invalid_unchanged (.expire 500 256) idleRecord (by decide)⟩

/-! ## `getAuthToken`: success -/

theorem getAuthToken_of_no_wallet (walletAddress : Option String)
    (dateNow : Int) (localStorage : Storage) :
    (truthy walletAddress = false →
      getAuthToken walletAddress dateNow localStorage =
        (.error notConnectedError, localStorage)) := by
  intro h
  simp [getAuthToken, falsy, h]

/-- The stored expiry as the code reads it: `parseInt` of the expiry entry, no number when
the entry is absent. -/
theorem storedExpiry_of_entry (localStorage : Storage) :
    ((localStorage.getItem "ethshot_auth_expires_at").bind parseInt) =
      if truthy (localStorage.getItem "ethshot_auth_expires_at") then
        parseInt (str (localStorage.getItem "ethshot_auth_expires_at"))
      else none := by
  cases h : localStorage.getItem "ethshot_auth_expires_at" with
  | none => simp [truthy]
  | some x =>
    by_cases hx : x = ""
    · subst hx
      have hnone : parseInt "" = none := by decide
      simp [truthy, hnone]
    · simp [truthy, str, hx]

/-- With a wallet connected and a token stored for it, `getAuthToken` returns the token and
leaves the store, unless the stored expiry is a non-zero integer below the current time. -/
theorem getAuthToken_of_stored_cases (W S tok : String) (dateNow : Int)
    (localStorage : Storage) (hW : W ≠ "")
    (htok : localStorage.getItem "ethshot_jwt_token" = some tok) (htok' : tok ≠ "")
    (hS : localStorage.getItem "ethshot_wallet_address" = some S) (hS' : S ≠ "")
    (hmatch : toLowerCase S = toLowerCase W) :
    ((∃ e, (localStorage.getItem "ethshot_auth_expires_at").bind parseInt = some e ∧
        e ≠ 0 ∧ e < Int.fdiv dateNow 1000) →
      (getAuthToken (some W) dateNow localStorage).1 = .error tokenExpiredError) ∧
    ((¬ ∃ e, (localStorage.getItem "ethshot_auth_expires_at").bind parseInt = some e ∧
        e ≠ 0 ∧ e < Int.fdiv dateNow 1000) →
      getAuthToken (some W) dateNow localStorage = (.ok tok, localStorage)) := by
  rw [getAuthToken_of_stored W S tok dateNow localStorage hW htok htok' hS hS' hmatch,
    storedExpiry_of_entry]
  by_cases ht : truthy (localStorage.getItem "ethshot_auth_expires_at") = true
  · simp only [ht, if_true]
    cases hp : parseInt (str (localStorage.getItem "ethshot_auth_expires_at")) with
    | none => simp
    | some e =>
      by_cases hexp : e ≠ 0 ∧ e < Int.fdiv dateNow 1000
      · simp [hexp.1, hexp.2]
      · constructor
        · rintro ⟨e', he', h⟩
          cases he'
          exact absurd h hexp
        · intro _
          have hb : (e != 0 && decide (e < Int.fdiv dateNow 1000)) = false := by
            rw [Bool.and_eq_false_iff]
            by_cases h0 : e = 0
            · exact Or.inl (by simp [h0])
            · exact Or.inr (by simpa using fun hlt => hexp ⟨h0, hlt⟩)
          simp only [hb, Bool.false_eq_true, if_false]
  · simp [ht]

/-- C18: `getAuthToken` succeeds exactly when a wallet is active, a token and a stored
wallet are both present, the stored wallet equals the active wallet ignoring case, and it
is not the case that the stored expiry parses to a non-zero integer smaller than the
current time in seconds. On success it returns exactly the stored token and leaves the
store unchanged. In particular, when the other conditions hold, a token stored with no
expiry entry, or with an expiry that parses to 0 or to no number, is accepted at every
time. -/
theorem getAuthToken_ok_iff (walletAddress : Option String) (dateNow : Int)
    (localStorage : Storage) :
    ((∃ token, (getAuthToken walletAddress dateNow localStorage).1 = .ok token) ↔
      (truthy walletAddress = true ∧
        truthy (localStorage.getItem "ethshot_jwt_token") = true ∧
        truthy (localStorage.getItem "ethshot_wallet_address") = true ∧
        toLowerCase (str (localStorage.getItem "ethshot_wallet_address")) =
          toLowerCase (str walletAddress) ∧
        ¬ ∃ e, (localStorage.getItem "ethshot_auth_expires_at").bind parseInt = some e ∧
          e ≠ 0 ∧ e < Int.fdiv dateNow 1000)) ∧
    (∀ token, (getAuthToken walletAddress dateNow localStorage).1 = .ok token →
      localStorage.getItem "ethshot_jwt_token" = some token ∧
      (getAuthToken walletAddress dateNow localStorage).2 = localStorage) ∧
    (truthy walletAddress = true →
      truthy (localStorage.getItem "ethshot_jwt_token") = true →
      truthy (localStorage.getItem "ethshot_wallet_address") = true →
      toLowerCase (str (localStorage.getItem "ethshot_wallet_address")) =
        toLowerCase (str walletAddress) →
      (localStorage.getItem "ethshot_auth_expires_at" = none ∨
        (localStorage.getItem "ethshot_auth_expires_at").bind parseInt = none ∨
        (localStorage.getItem "ethshot_auth_expires_at").bind parseInt = some 0) →
      ∀ anyTime, getAuthToken walletAddress anyTime localStorage =
        (.ok (str (localStorage.getItem "ethshot_jwt_token")), localStorage)) := by
  by_cases hw : truthy walletAddress = true
  swap
  · have hw' : truthy walletAddress = false := by simpa using hw
    have hr := getAuthToken_of_no_wallet walletAddress dateNow
      localStorage hw'
    refine ⟨⟨?_, fun h => absurd h.1 hw⟩, ?_, fun h => absurd h hw⟩
    · rintro ⟨token, ht⟩
      rw [hr] at ht
      exact Except.noConfusion ht
    · intro token ht
      rw [hr] at ht
      exact Except.noConfusion ht
  by_cases hj : truthy (localStorage.getItem "ethshot_jwt_token") = true
  swap
  · have hj' : truthy (localStorage.getItem "ethshot_jwt_token") = false := by simpa using hj
    have hr : getAuthToken walletAddress dateNow localStorage =
        (.error notAuthenticatedError, localStorage) := by
      simp [getAuthToken, falsy, hw, hj']
    refine ⟨⟨?_, fun h => absurd h.2.1 hj⟩, ?_, fun _ h => absurd h hj⟩
    · rintro ⟨token, ht⟩
      rw [hr] at ht
      exact Except.noConfusion ht
    · intro token ht
      rw [hr] at ht
      exact Except.noConfusion ht
  by_cases hs : truthy (localStorage.getItem "ethshot_wallet_address") = true
  swap
  · have hs' : truthy (localStorage.getItem "ethshot_wallet_address") = false := by
      simpa using hs
    have hr : getAuthToken walletAddress dateNow localStorage =
        (.error notAuthenticatedError, localStorage) := by
      simp [getAuthToken, falsy, hw, hs']
    refine ⟨⟨?_, fun h => absurd h.2.2.1 hs⟩, ?_, fun _ _ h => absurd h hs⟩
    · rintro ⟨token, ht⟩
      rw [hr] at ht
      exact Except.noConfusion ht
    · intro token ht
      rw [hr] at ht
      exact Except.noConfusion ht
  by_cases hm : toLowerCase (str (localStorage.getItem "ethshot_wallet_address")) =
      toLowerCase (str walletAddress)
  swap
  · have hr : getAuthToken walletAddress dateNow localStorage =
        (.error walletMismatchError, localStorage) := by
      simp [getAuthToken, falsy, hw, hj, hs, hm]
    refine ⟨⟨?_, fun h => absurd h.2.2.2.1 hm⟩, ?_, fun _ _ _ h => absurd h hm⟩
    · rintro ⟨token, ht⟩
      rw [hr] at ht
      exact Except.noConfusion ht
    · intro token ht
      rw [hr] at ht
      exact Except.noConfusion ht
  obtain ⟨W, rfl, hW⟩ : ∃ W, walletAddress = some W ∧ W ≠ "" := by
    cases walletAddress with
    | none => exact absurd hw (by decide)
    | some W => exact ⟨W, rfl, (truthy_some W).mp hw⟩
  obtain ⟨tok, htok, htok'⟩ : ∃ tok, localStorage.getItem "ethshot_jwt_token" = some tok ∧
      tok ≠ "" := by
    cases h : localStorage.getItem "ethshot_jwt_token" with
    | none => rw [h] at hj; exact absurd hj (by decide)
    | some tok => rw [h] at hj; exact ⟨tok, rfl, (truthy_some tok).mp hj⟩
  obtain ⟨S, hS, hS'⟩ : ∃ S, localStorage.getItem "ethshot_wallet_address" = some S ∧
      S ≠ "" := by
    cases h : localStorage.getItem "ethshot_wallet_address" with
    | none => rw [h] at hs; exact absurd hs (by decide)
    | some S => rw [h] at hs; exact ⟨S, rfl, (truthy_some S).mp hs⟩
  have hmatch : toLowerCase S = toLowerCase W := by simpa [hS, str] using hm
  have hcases := fun t =>
    getAuthToken_of_stored_cases W S tok t localStorage hW htok htok' hS hS' hmatch
  refine ⟨⟨?_, ?_⟩, ?_, ?_⟩
  · rintro ⟨token, ht⟩
    refine ⟨hw, hj, hs, hm, ?_⟩
    intro hexp
    rw [(hcases dateNow).1 hexp] at ht
    exact Except.noConfusion ht
  · rintro ⟨_, _, _, _, hexp⟩
    exact ⟨tok, by rw [(hcases dateNow).2 hexp]⟩
  · intro token ht
    by_cases hexp : ∃ e, (localStorage.getItem "ethshot_auth_expires_at").bind parseInt =
        some e ∧ e ≠ 0 ∧ e < Int.fdiv dateNow 1000
    · rw [(hcases dateNow).1 hexp] at ht
      exact Except.noConfusion ht
    · rw [(hcases dateNow).2 hexp] at ht ⊢
      exact ⟨by rw [htok, Except.ok.inj ht], rfl⟩
  · intro _ _ _ _ hexp anyTime
    have hno : ¬ ∃ e, (localStorage.getItem "ethshot_auth_expires_at").bind parseInt =
        some e ∧ e ≠ 0 ∧ e < Int.fdiv anyTime 1000 := by
      rintro ⟨e, he, h0, _⟩
      rcases hexp with h | h | h
      · rw [h] at he
        exact Option.noConfusion he
      · rw [h] at he
        exact Option.noConfusion he
      · rw [h] at he
        exact h0 (Option.some.inj he).symm
    rw [(hcases anyTime).2 hno, htok]
    rfl

/-- Instances of C18: a token stored without an expiry entry is returned and the store is
left as it was; a token stored with the expiry `0` is returned at a late time; and where the
call succeeds the conditions hold. -/
theorem getAuthToken_ok_iff_witness :
    getAuthToken (some "0xABC") 1700000000000 storeNoExpiry =
      (.ok (str (storeNoExpiry.getItem "ethshot_jwt_token")), storeNoExpiry) ∧
    getAuthToken (some "0xABC") 9900000000000 storeExpiryZero =
      (.ok (str (storeExpiryZero.getItem "ethshot_jwt_token")), storeExpiryZero) ∧
    (storeExpiringAt.getItem "ethshot_jwt_token" = some "tok" ∧
      (getAuthToken (some "0xABC") 1700000000000 storeExpiringAt).2 = storeExpiringAt) ∧
    (truthy (some "0xABC") = true ∧
      truthy (storeExpiringAt.getItem "ethshot_jwt_token") = true ∧
      truthy (storeExpiringAt.getItem "ethshot_wallet_address") = true ∧
      toLowerCase (str (storeExpiringAt.getItem "ethshot_wallet_address")) =
        toLowerCase (str (some "0xABC")) ∧
      ¬ ∃ e, (storeExpiringAt.getItem "ethshot_auth_expires_at").bind parseInt = some e ∧
        e ≠ 0 ∧ e < Int.fdiv 1700000000000 1000) :=
  ⟨(getAuthToken_ok_iff (some "0xABC") 0 storeNoExpiry).2.2 (by decide) (by decide)
      (by decide) (by decide) (Or.inl (by decide)) 1700000000000,
   (getAuthToken_ok_iff (some "0xABC") 0 storeExpiryZero).2.2 (by decide) (by decide)
      (by decide) (by decide) (Or.inr (Or.inr (by decide))) 9900000000000,
   (getAuthToken_ok_iff (some "0xABC") 1700000000000 storeExpiringAt).2.1 "tok" (by decide),
   (getAuthToken_ok_iff (some "0xABC") 1700000000000 storeExpiringAt).1.mp
      ⟨"tok", by decide⟩⟩

end EthShot
